import Mathlib

/-!
Verification of the waq WebAssembly-to-QBE compiler core against its
natural-language specification.

The development shallowly embeds the relevant Python sources:

* `src/waq/parser/binary.py`   — the `BinaryReader` (LEB128, limits, types);
* `src/waq/parser/module.py`   — header check, section loop, init
  expressions, the element section;
* `src/waq/validator/types.py` — the validation context (value stack,
  `pop_value` / `pop_expect`);
* `src/waq/compiler/context.py`, `src/waq/compiler/stack.py`,
  `src/waq/compiler/codegen.py`,
  `src/waq/compiler/instructions/control.py` — the code generator.

Bytes are `Nat` (each < 256 in well-formed inputs); a Python
`BinaryReader` is a pair of the byte list `data` and a cursor `pos`;
reader methods return `Except ParseErr (result × newPos)`.  Python
exceptions are modelled with `Except`.  Python lists used as stacks
(`value_stack`, `control_stack`) are represented with the TOP of the
stack at the HEAD of the Lean list (Python appends and pops at the end).
The `qbepy` IL library is not part of this repository; its passive data
containers are modelled from the specification (section 4.4).
-/

namespace Waq

/-- WASM value types, from `parser/types.py` (`class ValueType`). -/
inductive ValueType where
  | i32 | i64 | f32 | f64
  | funcref | externref
  | v128
  | anyref | eqref | i31ref | structref | arrayref
  | nullfuncref | nullexternref | nullref
  | i8 | i16
  deriving DecidableEq, Repr

/-- Binary encodings of `ValueType`, mirroring the `IntEnum` values. -/
def ValueType.code : ValueType → Nat
  | .i32 => 0x7F
  | .i64 => 0x7E
  | .f32 => 0x7D
  | .f64 => 0x7C
  | .funcref => 0x70
  | .externref => 0x6F
  | .v128 => 0x7B
  | .anyref => 0x6E
  | .eqref => 0x6D
  | .i31ref => 0x6C
  | .structref => 0x6B
  | .arrayref => 0x6A
  | .nullfuncref => 0x73
  | .nullexternref => 0x72
  | .nullref => 0x71
  | .i8 => 0x78
  | .i16 => 0x77

/-- Python `ValueType(byte)`: succeeds exactly on the enum member codes. -/
def ValueType.fromByte (b : Nat) : Option ValueType :=
  if b == 0x7F then some .i32
  else if b == 0x7E then some .i64
  else if b == 0x7D then some .f32
  else if b == 0x7C then some .f64
  else if b == 0x70 then some .funcref
  else if b == 0x6F then some .externref
  else if b == 0x7B then some .v128
  else if b == 0x6E then some .anyref
  else if b == 0x6D then some .eqref
  else if b == 0x6C then some .i31ref
  else if b == 0x6B then some .structref
  else if b == 0x6A then some .arrayref
  else if b == 0x73 then some .nullfuncref
  else if b == 0x72 then some .nullexternref
  else if b == 0x71 then some .nullref
  else if b == 0x78 then some .i8
  else if b == 0x77 then some .i16
  else none

/-- `ValueType.is_reference` from `parser/types.py`. -/
def ValueType.isReference : ValueType → Bool
  | .funcref | .externref | .anyref | .eqref | .i31ref | .structref
  | .arrayref | .nullfuncref | .nullexternref | .nullref => true
  | _ => false

/-- Lower-case rendering, as Python `str(ValueType)` (`name.lower()`). -/
def ValueType.toStr : ValueType → String
  | .i32 => "i32"
  | .i64 => "i64"
  | .f32 => "f32"
  | .f64 => "f64"
  | .funcref => "funcref"
  | .externref => "externref"
  | .v128 => "v128"
  | .anyref => "anyref"
  | .eqref => "eqref"
  | .i31ref => "i31ref"
  | .structref => "structref"
  | .arrayref => "arrayref"
  | .nullfuncref => "nullfuncref"
  | .nullexternref => "nullexternref"
  | .nullref => "nullref"
  | .i8 => "i8"
  | .i16 => "i16"

/-- Decidable equality for `Except`, so that concrete runs of the
embedded functions can be checked with `decide`. -/
instance {ε α : Type} [DecidableEq ε] [DecidableEq α] :
    DecidableEq (Except ε α) := fun a b =>
  match a, b with
  | .error e, .error f =>
    if h : e = f then .isTrue (by rw [h])
    else .isFalse (fun hh => by cases hh; exact h rfl)
  | .ok x, .ok y =>
    if h : x = y then .isTrue (by rw [h])
    else .isFalse (fun hh => by cases hh; exact h rfl)
  | .error _, .ok _ => .isFalse (fun hh => by cases hh)
  | .ok _, .error _ => .isFalse (fun hh => by cases hh)

/-- `ParseError{message, offset}` from `errors.py`. -/
structure ParseErr where
  msg : String
  off : Nat
  deriving DecidableEq, Repr

/-- `Limits` from `parser/types.py`: min and optional max. -/
structure Limits where
  min : Nat
  max : Option Nat
  deriving DecidableEq, Repr

/-- `MemoryType` from `parser/types.py`: limits plus the Memory64 flag
(field `is_memory64`, default `False`). -/
structure MemoryType where
  limits : Limits
  isMemory64 : Bool := false
  deriving DecidableEq, Repr

/-- `GlobalType` from `parser/types.py`. -/
structure GlobalType where
  valueType : ValueType
  mutable : Bool
  deriving DecidableEq, Repr

/-- `TableType` from `parser/types.py`. -/
structure TableType where
  limits : Limits
  elemType : ValueType
  deriving DecidableEq, Repr

/-- `FuncType` from `parser/types.py`: parameter and result types. -/
structure FuncType where
  params : List ValueType
  results : List ValueType
  deriving DecidableEq, Repr

/-- `FieldType` from `parser/types.py` (storage type or type index). -/
structure FieldType where
  storageType : Sum ValueType Int
  mutable : Bool
  deriving DecidableEq, Repr

/-- `CompositeType = FuncType | StructType | ArrayType` from
`parser/types.py`. -/
inductive CompositeType where
  | func (ft : FuncType)
  | struct (fields : List FieldType)
  | array (element : FieldType)
  deriving DecidableEq, Repr

/-- `BlockType = None | ValueType | int` from `parser/types.py`. -/
inductive BlockType where
  | empty
  | val (v : ValueType)
  | idx (i : Int)
  deriving DecidableEq, Repr

/-! ## BinaryReader primitives (`parser/binary.py`)

Each method acts on the byte list `data` and cursor `pos` and returns
the read value together with the new cursor. -/

/-- `BinaryReader.read_byte`. -/
def readByte (data : List Nat) (pos : Nat) : Except ParseErr (Nat × Nat) :=
  if h : pos < data.length then .ok (data.get ⟨pos, h⟩, pos + 1)
  else .error ⟨"unexpected end of data", pos⟩

/-- `BinaryReader.peek_byte`. -/
def peekByte (data : List Nat) (pos : Nat) : Except ParseErr Nat :=
  if h : pos < data.length then .ok (data.get ⟨pos, h⟩)
  else .error ⟨"unexpected end of data", pos⟩

/-- `BinaryReader.read_bytes`: read exactly `n` bytes. -/
def readBytes (data : List Nat) (pos n : Nat) :
    Except ParseErr (List Nat × Nat) :=
  if pos + n > data.length then .error ⟨"unexpected end of data", pos⟩
  else .ok ((data.drop pos).take n, pos + n)

/-- `BinaryReader.read_u32_leb128` loop body.  Each iteration consumes
one byte, so the recursion is made structural on `bound`, the number of
bytes still readable (`data.length - pos` at the call site); when it
reaches zero the cursor is past the end and the read fails exactly as
`read_byte` would. -/
def readU32Loop (data : List Nat) : Nat → Nat → Nat → Nat →
    Except ParseErr (Nat × Nat)
  | 0, pos, _, _ => .error ⟨"unexpected end of data", pos⟩
  | bound + 1, pos, result, shift =>
    match readByte data pos with
    | .error e => .error e
    | .ok (byte, pos1) =>
      let result := result ||| ((byte &&& 0x7F) <<< shift)
      if byte &&& 0x80 == 0 then .ok (result, pos1)
      else
        let shift := shift + 7
        if shift ≥ 35 then .error ⟨"LEB128 integer too large", pos1⟩
        else readU32Loop data bound pos1 result shift

/-- `BinaryReader.read_u32_leb128`. -/
def readU32 (data : List Nat) (pos : Nat) : Except ParseErr (Nat × Nat) :=
  readU32Loop data (data.length - pos) pos 0 0

/-- Python `result | (~0 << shift)` applied to a non-negative `result`:
all bits at positions `≥ shift` become 1, bits below `shift` are kept,
i.e. the value is `(result mod 2 ^ shift) - 2 ^ shift`. -/
def orAllOnesFrom (result shift : Nat) : Int :=
  ((result % 2 ^ shift : Nat) : Int) - (2 ^ shift : Int)

/-- `BinaryReader.read_s32_leb128` loop (structural on the remaining
byte count, as in `readU32Loop`).  The accumulator stays a natural
number; sign extension and the final 32-bit wrap are applied on exit. -/
def readS32Loop (data : List Nat) : Nat → Nat → Nat → Nat →
    Except ParseErr (Int × Nat)
  | 0, pos, _, _ => .error ⟨"unexpected end of data", pos⟩
  | bound + 1, pos, result, shift =>
    match readByte data pos with
    | .error e => .error e
    | .ok (byte, pos1) =>
      let result := result ||| ((byte &&& 0x7F) <<< shift)
      let shift := shift + 7
      if byte &&& 0x80 == 0 then
        -- sign extend if negative, then convert to signed 32-bit
        let signed : Int :=
          if shift < 32 ∧ byte &&& 0x40 ≠ 0 then orAllOnesFrom result shift
          else (result : Int)
        let signed := if signed ≥ 0x80000000 then signed - 0x100000000 else signed
        .ok (signed, pos1)
      else
        if shift ≥ 35 then .error ⟨"LEB128 integer too large", pos1⟩
        else readS32Loop data bound pos1 result shift

/-- `BinaryReader.read_s32_leb128`. -/
def readS32 (data : List Nat) (pos : Nat) : Except ParseErr (Int × Nat) :=
  readS32Loop data (data.length - pos) pos 0 0

/-- `BinaryReader.read_s64_leb128` loop (structural on the remaining
byte count, as in `readU32Loop`).  Note that, unlike the 32-bit variant,
the source performs no final conversion into the signed 64-bit range
after the loop. -/
def readS64Loop (data : List Nat) : Nat → Nat → Nat → Nat →
    Except ParseErr (Int × Nat)
  | 0, pos, _, _ => .error ⟨"unexpected end of data", pos⟩
  | bound + 1, pos, result, shift =>
    match readByte data pos with
    | .error e => .error e
    | .ok (byte, pos1) =>
      let result := result ||| ((byte &&& 0x7F) <<< shift)
      let shift := shift + 7
      if byte &&& 0x80 == 0 then
        -- sign extend if negative
        if shift < 64 ∧ byte &&& 0x40 ≠ 0 then .ok (orAllOnesFrom result shift, pos1)
        else .ok ((result : Int), pos1)
      else
        if shift ≥ 70 then .error ⟨"LEB128 integer too large", pos1⟩
        else readS64Loop data bound pos1 result shift

/-- `BinaryReader.read_s64_leb128`. -/
def readS64 (data : List Nat) (pos : Nat) : Except ParseErr (Int × Nat) :=
  readS64Loop data (data.length - pos) pos 0 0

/-- `BinaryReader.read_value_type`. -/
def readValueType (data : List Nat) (pos : Nat) :
    Except ParseErr (ValueType × Nat) :=
  match readByte data pos with
  | .error e => .error e
  | .ok (byte, pos1) =>
    match ValueType.fromByte byte with
    | some v => .ok (v, pos1)
    | none => .error ⟨"invalid value type", pos1 - 1⟩

/-- `BinaryReader.read_block_type`: one byte of lookahead distinguishes
empty, a single value type, or a signed type index. -/
def readBlockType (data : List Nat) (pos : Nat) :
    Except ParseErr (BlockType × Nat) :=
  match peekByte data pos with
  | .error e => .error e
  | .ok byte =>
    if byte == 0x40 then
      match readByte data pos with
      | .error e => .error e
      | .ok (_, pos1) => .ok (.empty, pos1)
    else if byte == 0x7F ∨ byte == 0x7E ∨ byte == 0x7D ∨ byte == 0x7C ∨
        byte == 0x70 ∨ byte == 0x6F then
      match readValueType data pos with
      | .error e => .error e
      | .ok (v, pos1) => .ok (.val v, pos1)
    else
      match readS32 data pos with
      | .error e => .error e
      | .ok (i, pos1) => .ok (.idx i, pos1)

/-- `BinaryReader.read_limits`: a flags byte, a u32 min, and a u32 max
when bit 0x01 of the flags is set.  No other flag bit is consulted. -/
def readLimits (data : List Nat) (pos : Nat) :
    Except ParseErr (Limits × Nat) :=
  match readByte data pos with
  | .error e => .error e
  | .ok (flags, pos1) =>
    match readU32 data pos1 with
    | .error e => .error e
    | .ok (minVal, pos2) =>
      if flags &&& 0x01 ≠ 0 then
        match readU32 data pos2 with
        | .error e => .error e
        | .ok (maxVal, pos3) => .ok (⟨minVal, some maxVal⟩, pos3)
      else .ok (⟨minVal, none⟩, pos2)

/-- `BinaryReader.read_memory_type`: reads the limits and builds a
`MemoryType` with the default `is_memory64 = False`. -/
def readMemoryType (data : List Nat) (pos : Nat) :
    Except ParseErr (MemoryType × Nat) :=
  match readLimits data pos with
  | .error e => .error e
  | .ok (limits, pos1) => .ok ({ limits := limits }, pos1)

/-- Modelled from the spec: the signed LEB128 encoder (spec section 4.1:
continuation bit in the high bit of each byte, 7-bit payload, signed
form sign-extends).  The repository contains only decoders, so the
encoder is the standard algorithm the spec describes; `n / 128` and
`n % 128` are the arithmetic 7-bit shift and the low 7 bits.  The fuel
argument only bounds the recursion; 16 bytes cover every 64-bit
value. -/
def sleb128Aux : Nat → Int → List Nat
  | 0, _ => []
  | fuel + 1, n =>
    let b := (n % 128).toNat
    let n1 := n / 128
    if (n1 = 0 ∧ b &&& 0x40 = 0) ∨ (n1 = -1 ∧ b &&& 0x40 ≠ 0) then [b]
    else (b ||| 0x80) :: sleb128Aux fuel n1

/-- Signed LEB128 encoding of an integer (see `sleb128Aux`). -/
def sleb128Encode (n : Int) : List Nat := sleb128Aux 16 n

/-! ## Module parsing (`parser/module.py`) -/

/-- `WASM_MAGIC = b"\x00asm"` from `parser/binary.py`. -/
def wasmMagic : List Nat := [0x00, 0x61, 0x73, 0x6D]

/-- Little-endian interpretation of a byte list, as Python
`int.from_bytes(bytes, "little")`. -/
def leNat : List Nat → Nat
  | [] => 0
  | b :: bs => b + 256 * leNat bs

/-- Header check of `parse_module` (`parser/module.py` lines 238-250):
4 magic bytes, then a 4-byte little-endian version that must be 1.
Returns the cursor after the header. -/
def parseHeader (data : List Nat) : Except ParseErr Nat :=
  match readBytes data 0 4 with
  | .error e => .error e
  | .ok (magic, pos1) =>
    if magic ≠ wasmMagic then .error ⟨"invalid magic number", 0⟩
    else
      match readBytes data pos1 4 with
      | .error e => .error e
      | .ok (vbytes, pos2) =>
        if leNat vbytes ≠ 1 then .error ⟨"unsupported version", 4⟩
        else .ok pos2

/-- One iteration of the section loop of `parse_module`
(`parser/module.py` lines 255-266): the section id byte, the u32-LEB128
size, and the `size`-byte payload slice.  The payload is then parsed on
a fresh sub-reader (`reader.slice`), which cannot move the outer
cursor, and unknown section ids are simply skipped; so the outer
cursor's behaviour is fully described by this step. -/
def sectionStep (data : List Nat) (pos : Nat) :
    Except ParseErr (Nat × List Nat × Nat) :=
  match readByte data pos with
  | .error e => .error e
  | .ok (sectionId, pos1) =>
    match readU32 data pos1 with
    | .error e => .error e
    | .ok (sectionSize, pos2) =>
      match readBytes data pos2 sectionSize with
      | .error e => .error e
      | .ok (payload, pos3) => .ok (sectionId, payload, pos3)

/-- The section loop of `parse_module` (`while not reader.at_end`),
collecting each section id and payload.  The recursion is structural on
the number of bytes still readable; the zero case can only be reached
with the cursor at or past the end, where the loop stops. -/
def sectionScan (data : List Nat) : Nat → Nat →
    Except ParseErr (List (Nat × List Nat))
  | 0, _ => .ok []
  | bound + 1, pos =>
    if pos ≥ data.length then .ok []
    else
      match sectionStep data pos with
      | .error e => .error e
      | .ok (sectionId, payload, pos1) =>
        match sectionScan data bound pos1 with
        | .error e => .error e
        | .ok rest => .ok ((sectionId, payload) :: rest)

/-- The section structure of a whole module: header then sections. -/
def scanModule (data : List Nat) :
    Except ParseErr (List (Nat × List Nat)) :=
  match parseHeader data with
  | .error e => .error e
  | .ok pos => sectionScan data (data.length - pos) pos

/-- `_read_init_expr` loop (`parser/module.py` lines 463-489): scan
until the balancing `end` opcode (0x0B), tracking nesting `depth` and
skipping each opcode's immediates.  Returns the cursor after the
expression.  The recursion is structural on the number of bytes still
readable (each iteration reads at least the opcode byte); the zero case
can only be reached with the cursor past the end, where `read_byte`
fails with the same error. -/
def readInitExprLoop (data : List Nat) : Nat → Nat → Nat →
    Except ParseErr Nat
  | _, pos, 0 => .ok pos
  | 0, pos, _ + 1 => .error ⟨"unexpected end of data", pos⟩
  | bound + 1, pos, depth + 1 =>
    match readByte data pos with
    | .error e => .error e
    | .ok (opcode, pos1) =>
      if opcode == 0x0B then  -- end
        readInitExprLoop data bound pos1 depth
      else if opcode == 0x02 ∨ opcode == 0x03 ∨ opcode == 0x04 then
        -- block, loop, if
        match readBlockType data pos1 with
        | .error e => .error e
        | .ok (_, pos2) => readInitExprLoop data bound pos2 (depth + 2)
      else if opcode == 0x41 ∨ opcode == 0x42 then  -- i32.const, i64.const
        match readS64 data pos1 with
        | .error e => .error e
        | .ok (_, pos2) => readInitExprLoop data bound pos2 (depth + 1)
      else if opcode == 0x43 then  -- f32.const
        match readBytes data pos1 4 with
        | .error e => .error e
        | .ok (_, pos2) => readInitExprLoop data bound pos2 (depth + 1)
      else if opcode == 0x44 then  -- f64.const
        match readBytes data pos1 8 with
        | .error e => .error e
        | .ok (_, pos2) => readInitExprLoop data bound pos2 (depth + 1)
      else if opcode == 0x23 then  -- global.get
        match readU32 data pos1 with
        | .error e => .error e
        | .ok (_, pos2) => readInitExprLoop data bound pos2 (depth + 1)
      else if opcode == 0xD0 then  -- ref.null
        match readByte data pos1 with
        | .error e => .error e
        | .ok (_, pos2) => readInitExprLoop data bound pos2 (depth + 1)
      else if opcode == 0xD2 then  -- ref.func
        match readU32 data pos1 with
        | .error e => .error e
        | .ok (_, pos2) => readInitExprLoop data bound pos2 (depth + 1)
      else
        -- other opcodes carry no immediates here
        readInitExprLoop data bound pos1 (depth + 1)

/-- `_read_init_expr`: the scanned raw expression bytes
(`reader.data[start:end]`) together with the new cursor. -/
def readInitExpr (data : List Nat) (pos : Nat) :
    Except ParseErr (List Nat × Nat) :=
  match readInitExprLoop data (data.length - pos) pos 1 with
  | .error e => .error e
  | .ok endPos => .ok ((data.drop pos).take (endPos - pos), endPos)

/-- `ElementSegment` from `parser/module.py`. -/
structure ElementSegment where
  tableIdx : Nat
  offsetExpr : List Nat
  funcIndices : List Nat
  deriving DecidableEq, Repr

/-- Element loop of `read_vector(reader.read_u32_leb128)`: `count`
unsigned LEB128 integers. -/
def readU32VectorLoop (data : List Nat) : Nat → Nat →
    Except ParseErr (List Nat × Nat)
  | 0, pos => .ok ([], pos)
  | n + 1, pos =>
    match readU32 data pos with
    | .error e => .error e
    | .ok (v, pos1) =>
      match readU32VectorLoop data n pos1 with
      | .error e => .error e
      | .ok (rest, pos2) => .ok (v :: rest, pos2)

/-- `BinaryReader.read_vector(read_u32_leb128)`: a u32 count followed by
that many u32 elements. -/
def readU32Vector (data : List Nat) (pos : Nat) :
    Except ParseErr (List Nat × Nat) :=
  match readU32 data pos with
  | .error e => .error e
  | .ok (count, pos1) => readU32VectorLoop data count pos1

/-- One entry of `_parse_element_section` (`parser/module.py` lines
403-413): a u32 flags value; only `flags = 0` (active segment, table 0,
offset expression plus function-index vector) is accepted, anything
else raises `ParseError`. -/
def parseElementEntry (data : List Nat) (pos : Nat) :
    Except ParseErr (ElementSegment × Nat) :=
  match readU32 data pos with
  | .error e => .error e
  | .ok (flags, pos1) =>
    if flags == 0 then
      match readInitExpr data pos1 with
      | .error e => .error e
      | .ok (offsetExpr, pos2) =>
        match readU32Vector data pos2 with
        | .error e => .error e
        | .ok (funcIndices, pos3) =>
          .ok (⟨0, offsetExpr, funcIndices⟩, pos3)
    else .error ⟨"unsupported element segment flags", pos1⟩

/-- The `for _ in range(count)` loop of `_parse_element_section`. -/
def parseElementLoop (data : List Nat) : Nat → Nat →
    Except ParseErr (List ElementSegment × Nat)
  | 0, pos => .ok ([], pos)
  | n + 1, pos =>
    match parseElementEntry data pos with
    | .error e => .error e
    | .ok (seg, pos1) =>
      match parseElementLoop data n pos1 with
      | .error e => .error e
      | .ok (rest, pos2) => .ok (seg :: rest, pos2)

/-- `_parse_element_section`: the u32 entry count followed by the
entries; returns the element segments appended to `module.elements`. -/
def parseElementSection (data : List Nat) (pos : Nat) :
    Except ParseErr (List ElementSegment × Nat) :=
  match readU32 data pos with
  | .error e => .error e
  | .ok (count, pos1) => parseElementLoop data count pos1

/-! ## Module representation (`parser/module.py`) -/

/-- `ImportKind` from `parser/module.py`. -/
inductive ImportKind where
  | func | table | memory | glob
  deriving DecidableEq, Repr

/-- `ExportKind` from `parser/module.py`. -/
inductive ExportKind where
  | func | table | memory | glob
  deriving DecidableEq, Repr

/-- The `desc` field of an `Import`: a type index for functions, or a
table/memory/global type. -/
inductive ImportDesc where
  | typeIdx (t : Nat)
  | table (t : TableType)
  | memory (m : MemoryType)
  | globalTy (g : GlobalType)
  deriving DecidableEq, Repr

/-- `Import` from `parser/module.py`. -/
structure Import where
  importModule : String
  name : String
  kind : ImportKind
  desc : ImportDesc
  deriving DecidableEq, Repr

/-- `Export` from `parser/module.py`. -/
structure Export where
  name : String
  kind : ExportKind
  index : Nat
  deriving DecidableEq, Repr

/-- `Global` from `parser/module.py` (global definition). -/
structure GlobalDef where
  type : GlobalType
  initExpr : List Nat
  deriving DecidableEq, Repr

/-- `FunctionBody` from `parser/module.py`. -/
structure FunctionBody where
  locals : List (Nat × ValueType)
  code : List Nat
  deriving DecidableEq, Repr

/-- `FunctionBody.all_locals`: expand `(count, type)` groups. -/
def FunctionBody.allLocals (b : FunctionBody) : List ValueType :=
  b.locals.foldr (fun (g : Nat × ValueType) acc =>
    List.replicate g.fst g.snd ++ acc) []

/-- `WasmModule` from `parser/module.py` (the fields consulted by the
embedded functions; `data`, `custom` and `start` play no role in any
claim and are omitted). -/
structure WasmModule where
  types : List CompositeType := []
  imports : List Import := []
  funcTypes : List Nat := []
  tables : List TableType := []
  memories : List MemoryType := []
  globals : List GlobalDef := []
  exports : List Export := []
  elements : List ElementSegment := []
  code : List FunctionBody := []
  functionNames : List (Nat × String) := []
  deriving DecidableEq, Repr

/-- Python dict lookup on an association list. -/
def assocLookup (l : List (Nat × String)) (k : Nat) : Option String :=
  (l.find? (fun p => p.fst == k)).map (fun p => p.snd)

/-- `WasmModule.num_imported_funcs`. -/
def numImportedFuncs (m : WasmModule) : Nat :=
  (m.imports.filter (fun i => i.kind == ImportKind.func)).length

/-- The scan `for imp in imports: if imp.kind == FUNC: ...` used by
`get_func_type` and `ModuleContext.get_func_name`: the `k`-th import of
function kind, if any. -/
def nthFuncImport : List Import → Nat → Option Import
  | [], _ => none
  | imp :: rest, k =>
    if imp.kind == ImportKind.func then
      if k == 0 then some imp else nthFuncImport rest (k - 1)
    else nthFuncImport rest k

/-- Python exceptions raised inside the compiler:
`CompileError` from `errors.py`, plus the builtin `ValueError`,
`IndexError` (out-of-range list subscript), `AttributeError` (missing
attribute), `AssertionError` and `TypeError` (a call whose positional
arguments do not match the callee's parameters) that compiler code can
raise. -/
inductive CErr where
  | compileError (msg : String)
  | valueError (msg : String)
  | indexError (msg : String)
  | attributeError (msg : String)
  | assertionError (msg : String)
  | typeError (msg : String)
  | parseError (e : ParseErr)
  deriving DecidableEq, Repr

/-- `WasmModule.get_func_type` (`parser/module.py` lines 182-207):
resolve a function index to its `FuncType`, counting imported functions
before defined ones. -/
def getFuncType (m : WasmModule) (funcIdx : Nat) : Except CErr FuncType :=
  let numImports := numImportedFuncs m
  if funcIdx < numImports then
    match nthFuncImport m.imports funcIdx with
    | some imp =>
      match imp.desc with
      | .typeIdx t =>
        match m.types.get? t with
        | some (.func ft) => .ok ft
        | some _ => .error (.valueError "type is not a function type")
        | none => .error (.indexError "list index out of range")
      | _ => .error (.assertionError "import desc is not an int")
    | none => .error (.valueError "import function not found")
  else
    let localIdx := funcIdx - numImports
    if localIdx ≥ m.funcTypes.length then
      .error (.valueError "function not found")
    else
      match m.funcTypes.get? localIdx with
      | none => .error (.indexError "list index out of range")
      | some t =>
        match m.types.get? t with
        | some (.func ft) => .ok ft
        | some _ => .error (.valueError "type is not a function type")
        | none => .error (.indexError "list index out of range")

/-- `WasmModule.get_func_name` (`parser/module.py` lines 227-235): the
debug name from the name section, else the first matching export name,
else a generated `func_<idx>`. -/
def moduleGetFuncName (m : WasmModule) (funcIdx : Nat) : String :=
  match assocLookup m.functionNames funcIdx with
  | some n => n
  | none =>
    match m.exports.find? (fun e =>
        e.kind == ExportKind.func && e.index == funcIdx) with
    | some e => e.name
    | none => "func_" ++ toString funcIdx

/-- `ModuleContext.get_func_name` (`compiler/context.py` lines 139-175):
the native (QBE) symbol for a WASM function index.  Imported functions
use their import field name; exported functions use the export name
unchanged; internal functions get a `__wasm_` prefix.  The
`self.func_names` dict only memoizes the result and is dropped here. -/
def getFuncName (m : WasmModule) (funcIdx : Nat) : Except CErr String :=
  let numImports := numImportedFuncs m
  if funcIdx < numImports then
    match nthFuncImport m.imports funcIdx with
    | some imp => .ok imp.name
    | none => .error (.valueError "imported function not found")
  else
    match m.exports.find? (fun e =>
        e.kind == ExportKind.func && e.index == funcIdx) with
    | some e => .ok e.name
    | none => .ok ("__wasm_" ++ moduleGetFuncName m funcIdx)

/-! ## Validator context (`validator/types.py`) -/

/-- `ValidationSeverity` from `validator/types.py`. -/
inductive VSeverity where
  | error | warning | info
  deriving DecidableEq, Repr

/-- `ValidationIssue` from `validator/types.py`. -/
structure VIssue where
  severity : VSeverity
  message : String
  location : Option String := none
  funcIdx : Option Nat := none
  instrOffset : Option Nat := none
  deriving DecidableEq, Repr

/-- Validator `ControlFrame` from `validator/types.py`. -/
structure VFrame where
  kind : String
  startDepth : Nat
  resultTypes : List ValueType
  paramTypes : List ValueType := []
  unreachable : Bool := false
  deriving DecidableEq, Repr

/-- `ValidationContext` from `validator/types.py`; `result.issues` is
the accumulated issue list (appended at the end), and the two stacks
keep their top at the head of the list. -/
structure VContext where
  module : WasmModule
  issues : List VIssue := []
  currentFuncIdx : Option Nat := none
  currentFuncType : Option FuncType := none
  locals : List ValueType := []
  valueStack : List ValueType := []
  controlStack : List VFrame := []
  currentOffset : Nat := 0
  deriving DecidableEq, Repr

/-- `ValidationContext.error`: record an error-level issue at the
current location. -/
def vError (ctx : VContext) (message : String) : VContext :=
  let location : Option String :=
    match ctx.currentFuncIdx with
    | none => none
    | some i =>
      let loc := "function " ++ toString i
      some (if ctx.currentOffset > 0 then
        loc ++ ", offset " ++ toString ctx.currentOffset else loc)
  { ctx with issues := ctx.issues ++
      [⟨.error, message, location, ctx.currentFuncIdx, some ctx.currentOffset⟩] }

/-- `ValidationContext.pop_value`: pop a value type; on an empty stack,
return the dummy type `i32` when the innermost control frame is marked
unreachable, and `None` (underflow) otherwise. -/
def popValue (ctx : VContext) : Option ValueType × VContext :=
  match ctx.valueStack with
  | [] =>
    if (match ctx.controlStack with
        | f :: _ => f.unreachable
        | [] => false) then
      (some .i32, ctx)  -- dummy type for unreachable code
    else (none, ctx)
  | v :: rest => (some v, { ctx with valueStack := rest })

/-- `ValidationContext.pop_expect`: pop and check the type, recording a
diagnostic and returning `False` on underflow or mismatch. -/
def popExpect (ctx : VContext) (expected : ValueType) : Bool × VContext :=
  match popValue ctx with
  | (none, ctx1) =>
    (false, vError ctx1 ("stack underflow: expected " ++ expected.toStr))
  | (some actual, ctx1) =>
    if actual ≠ expected then
      (false, vError ctx1 ("type mismatch: expected " ++ expected.toStr ++
        ", got " ++ actual.toStr))
    else (true, ctx1)

/-! ## The target IL (`qbepy`)

The `qbepy` package is not part of this repository; the passive data
containers below are modelled from the specification, section 4.4
("A typed value DSL ... A `Block` holds a name, a list of phi nodes, a
list of instructions, and exactly one terminator").  Only the
constructors the embedded compiler code instantiates are included. -/

/-- Modelled from the spec: the IL base types `w`, `l`, `s`, `d`
(section 6; `b`/`h` appear only inside memory-access instruction names,
which the compiler passes as strings). -/
inductive IrType where
  | w | l | s | d
  deriving DecidableEq, Repr

/-- Modelled from the spec: IL values `Temporary(name)`, `Global(name)`,
`IntConst(v)` (section 4.4).  `FloatConst` is never instantiated by the
embedded code. -/
inductive Value where
  | temp (name : String)
  | glob (name : String)
  | intConst (v : Int)
  deriving DecidableEq, Repr

/-- Modelled from the spec: an IL label (`Label(name)`). -/
structure LabelV where
  name : String
  deriving DecidableEq, Repr

/-- Modelled from the spec: a phi node with its incoming
`(label, value)` pairs. -/
structure PhiNode where
  result : Value
  resultType : IrType
  incoming : List (LabelV × Value)
  deriving DecidableEq, Repr

/-- Modelled from the spec: the IL instruction nodes the compiler
emits (section 4.4).  Field layouts follow the keyword arguments used
at the `qbepy.ir` call sites in `compiler/`. -/
inductive Instr where
  | binaryOp (result : Value) (resultType : IrType) (op : String)
      (left right : Value)
  | comparison (result : Value) (resultType : IrType) (op : String)
      (left right : Value)
  | conversion (op : String) (result : Value) (resultType : IrType)
      (operand : Value)
  | load (result : Value) (resultType : IrType) (address : Value)
      (loadType : Option String)
  | store (storeType : String) (value : Value) (address : Value)
  | alloc (result : Value) (size : Value) (align : Nat)
  | call (target : Value) (args : List (IrType × Value))
      (result : Option Value) (resultType : Option IrType)
  deriving DecidableEq, Repr

/-- Modelled from the spec: the IL terminators (section 4.4). -/
inductive Terminator where
  | jump (target : LabelV)
  | branch (condition : Value) (ifTrue ifFalse : LabelV)
  | ret (value : Option Value)
  | halt
  deriving DecidableEq, Repr

/-- Modelled from the spec: a basic block — name, phi nodes,
instructions, and an optional terminator (`None` until set). -/
structure Block where
  name : String
  phis : List PhiNode := []
  instructions : List Instr := []
  terminator : Option Terminator := none
  deriving DecidableEq, Repr

/-- Modelled from the spec: `Function.add_block(name)` registers and
returns a fresh empty block; the embedded step functions return the
blocks they create in creation order instead of mutating a `Function`
object. -/
def mkBlock (name : String) : Block := { name := name }

/-- `str.removeprefix("@")` as used on label names in
`compiler/instructions/control.py`. -/
def stripAt (s : String) : String :=
  if s.startsWith "@" then s.drop 1 else s

/-- `Instr.call` recognizer, for stating "contains no call". -/
def Instr.isCall : Instr → Bool
  | .call .. => true
  | _ => false

/-! ## Compiler value stack (`compiler/stack.py`)

The Python list keeps the stack top at its end; here the top is the
head of `stack`. -/

/-- `StackValue` from `compiler/stack.py`. -/
structure StackValue where
  name : String
  type : ValueType
  deriving DecidableEq, Repr

/-- `ValueStack` from `compiler/stack.py`. -/
structure ValueStack where
  stack : List StackValue := []
  tempCounter : Nat := 0
  deriving DecidableEq, Repr

/-- `ValueStack.push`. -/
def ValueStack.push (s : ValueStack) (v : StackValue) : ValueStack :=
  { s with stack := v :: s.stack }

/-- `ValueStack.pop`: `CompileError` on an empty stack. -/
def ValueStack.pop (s : ValueStack) : Except CErr (StackValue × ValueStack) :=
  match s.stack with
  | [] => .error (.compileError "stack underflow")
  | v :: rest => .ok (v, { s with stack := rest })

/-- `ValueStack.pop_n`: remove the top `n` values; the returned list has
the first-popped (deepest of the `n`) value first, as the Python slice
`_stack[-n:]` does. -/
def ValueStack.popN (s : ValueStack) (n : Nat) :
    Except CErr (List StackValue × ValueStack) :=
  if s.stack.length < n then .error (.compileError "stack underflow")
  else .ok ((s.stack.take n).reverse, { s with stack := s.stack.drop n })

/-- `ValueStack.peek_at`: the value `index` entries below the top. -/
def ValueStack.peekAt (s : ValueStack) (index : Nat) :
    Except CErr StackValue :=
  match s.stack.get? index with
  | some v => .ok v
  | none => .error (.compileError "stack underflow on peek_at")

/-- `ValueStack.new_temp`: mint `t<counter>` and push it. -/
def ValueStack.newTemp (s : ValueStack) (vtype : ValueType) :
    StackValue × ValueStack :=
  let v : StackValue := ⟨"t" ++ toString s.tempCounter, vtype⟩
  (v, { stack := v :: s.stack, tempCounter := s.tempCounter + 1 })

/-- `ValueStack.new_temp_no_push`. -/
def ValueStack.newTempNoPush (s : ValueStack) (vtype : ValueType) :
    StackValue × ValueStack :=
  let v : StackValue := ⟨"t" ++ toString s.tempCounter, vtype⟩
  (v, { s with tempCounter := s.tempCounter + 1 })

/-- `ValueStack.depth`. -/
def ValueStack.depth (s : ValueStack) : Nat := s.stack.length

/-! ## Compiler contexts (`compiler/context.py`) -/

/-- Compiler `ControlFrame` from `compiler/context.py`. -/
structure CtlFrame where
  kind : String
  startDepth : Nat
  resultTypes : List ValueType
  labelName : String
  elseLabel : Option String := none
  endLabel : Option String := none
  thenValues : Option (List String) := none
  thenLabel : Option String := none
  catchLabel : Option String := none
  catchAllLabel : Option String := none
  delegateDepth : Option Nat := none
  exceptionTag : Option Nat := none
  deriving DecidableEq, Repr

/-- `FunctionContext` from `compiler/context.py`.  `qbe_func` and
`current_block` are threaded separately by the embedded step functions;
`local_addrs` is the dict from local index to the temporary holding the
slot address; `control_stack` keeps its top at the head. -/
structure FunctionContext where
  module : WasmModule
  funcIdx : Nat
  funcType : FuncType
  locals : List ValueType := []
  stack : ValueStack := {}
  controlStack : List CtlFrame := []
  localAddrs : List (Nat × String) := []
  labelCounter : Nat := 0
  deriving DecidableEq, Repr

/-- `ModuleContext` from `compiler/context.py` (the memoization dicts
and fixed symbol names are not consulted by the embedded code). -/
structure ModuleContext where
  module : WasmModule
  deriving DecidableEq, Repr

/-- `FunctionContext.new_label`. -/
def FunctionContext.newLabel (ctx : FunctionContext) (prefixStr : String) :
    String × FunctionContext :=
  (prefixStr ++ toString ctx.labelCounter,
    { ctx with labelCounter := ctx.labelCounter + 1 })

/-- `FunctionContext.get_local_addr`. -/
def FunctionContext.getLocalAddr (ctx : FunctionContext) (idx : Nat) :
    Except CErr String :=
  match assocLookup ctx.localAddrs idx with
  | some a => .ok a
  | none => .error (.valueError "local not allocated")

/-- `FunctionContext.push_control`. -/
def FunctionContext.pushControl (ctx : FunctionContext) (f : CtlFrame) :
    FunctionContext :=
  { ctx with controlStack := f :: ctx.controlStack }

/-- `FunctionContext.pop_control`. -/
def FunctionContext.popControl (ctx : FunctionContext) :
    Except CErr (CtlFrame × FunctionContext) :=
  match ctx.controlStack with
  | [] => .error (.valueError "control stack underflow")
  | f :: rest => .ok (f, { ctx with controlStack := rest })

/-- `FunctionContext.get_branch_target`: depth 0 is the innermost
frame. -/
def FunctionContext.getBranchTarget (ctx : FunctionContext) (depth : Nat) :
    Except CErr CtlFrame :=
  if depth ≥ ctx.controlStack.length then
    .error (.valueError "branch depth exceeds control stack")
  else
    match ctx.controlStack.get? depth with
    | some f => .ok f
    | none => .error (.valueError "branch depth exceeds control stack")

/-! ## Control-flow compilation (`compiler/instructions/control.py`) -/

/-- `_vtype_to_store_type` from `compiler/instructions/control.py`
(supports only the numeric types plus `funcref`/`externref`). -/
def ctlVtypeToStoreType : ValueType → Except CErr String
  | .i32 => .ok "storew"
  | .i64 => .ok "storel"
  | .f32 => .ok "stores"
  | .f64 => .ok "stored"
  | .funcref => .ok "storel"
  | .externref => .ok "storel"
  | _ => .error (.valueError "unknown value type")

/-- `_vtype_to_ir_type` from `compiler/instructions/control.py`. -/
def ctlVtypeToIrType : ValueType → Except CErr IrType
  | .i32 => .ok .w
  | .i64 => .ok .l
  | .f32 => .ok .s
  | .f64 => .ok .d
  | .funcref => .ok .l
  | .externref => .ok .l
  | _ => .error (.valueError "unknown value type")

/-- `_vtype_size` from `compiler/instructions/control.py`. -/
def ctlVtypeSize : ValueType → Except CErr Nat
  | .i32 => .ok 4
  | .i64 => .ok 8
  | .f32 => .ok 4
  | .f64 => .ok 8
  | .funcref => .ok 8
  | .externref => .ok 8
  | _ => .error (.valueError "unknown value type")

/-- `_vtype_to_load_type` from `compiler/instructions/control.py`. -/
def ctlVtypeToLoadType : ValueType → Except CErr String
  | .i32 => .ok "loadw"
  | .i64 => .ok "loadl"
  | .f32 => .ok "loads"
  | .f64 => .ok "loadd"
  | .funcref => .ok "loadl"
  | .externref => .ok "loadl"
  | _ => .error (.valueError "unknown value type")

/-- Python list subscript with negative-index wrap-around, as
`ctx.module.types[block_type]` can receive a signed type index. -/
def pyListGet {α : Type} (l : List α) (i : Int) : Option α :=
  if 0 ≤ i then l.get? i.toNat
  else if (-i).toNat ≤ l.length then l.get? (l.length - (-i).toNat)
  else none

/-- `_block_type_to_results` from `compiler/instructions/control.py`:
empty, a single value type, or the results of the indexed function
type (`func_type.results` fails on a struct/array type; an out-of-range
subscript raises `IndexError`). -/
def ctlBlockTypeToResults (bt : BlockType) (ctx : FunctionContext) :
    Except CErr (List ValueType) :=
  match bt with
  | .empty => .ok []
  | .val v => .ok [v]
  | .idx i =>
    match pyListGet ctx.module.types i with
    | none => .error (.indexError "list index out of range")
    | some (.func ft) => .ok ft.results
    | some _ => .error (.attributeError "no attribute results")

/-- `_emit_branch`: terminate `block` with a jump to the target frame's
branch label (the `ctx` argument is unused in the source as well). -/
def emitBranch (_ctx : FunctionContext) (blk : Block) (target : CtlFrame) :
    Block :=
  { blk with terminator := some (.jump ⟨target.labelName⟩) }

/-- `_emit_return` from `compiler/instructions/control.py`.  For two or
more results the loop body's first access to `ctx.mv_out_params` raises
`AttributeError`: `FunctionContext` (`compiler/context.py`) defines no
such attribute. -/
def emitReturn (ctx : FunctionContext) (blk : Block) :
    Except CErr (FunctionContext × Block) :=
  match ctx.funcType.results with
  | [] => .ok (ctx, { blk with terminator := some (.ret none) })
  | [_] =>
    match ctx.stack.pop with
    | .error e => .error e
    | .ok (value, stack1) =>
      .ok ({ ctx with stack := stack1 },
        { blk with terminator := some (.ret (some (.temp value.name))) })
  | resultTypes =>
    match ctx.stack.popN resultTypes.length with
    | .error e => .error e
    | .ok _ =>
      .error (.attributeError "FunctionContext has no attribute mv_out_params")

/-- The `zip(args, func_type.params, strict=True)` loop building the
typed call argument list (raises `ValueError` on length mismatch). -/
def buildCallArgs : List StackValue → List ValueType →
    Except CErr (List (IrType × Value))
  | [], [] => .ok []
  | a :: restArgs, p :: restParams =>
    match ctlVtypeToIrType p with
    | .error e => .error e
    | .ok t =>
      match buildCallArgs restArgs restParams with
      | .error e => .error e
      | .ok l => .ok ((t, Value.temp a.name) :: l)
  | _, _ => .error (.valueError "zip argument lengths differ")

/-- The multi-result out-slot allocation loop shared by the call
emitters (`for i in range(1, len(results))`): for each extra result
mint a temporary, append an `Alloc`, and extend the call-argument list
with an `l`-typed pointer.  Returns the updated stack, the `Alloc`
instructions, the extra call arguments, and the `ret_slots` list. -/
def allocRetSlots (stack : ValueStack) : List ValueType →
    Except CErr (ValueStack × List Instr × List (IrType × Value) ×
      List (String × ValueType))
  | [] => .ok (stack, [], [], [])
  | vt :: rest =>
    let (slot, stack1) := stack.newTempNoPush .i64
    match ctlVtypeSize vt with
    | .error e => .error e
    | .ok size =>
      let align := if size == 8 then 8 else 4
      let ins := Instr.alloc (.temp slot.name) (.intConst size) align
      match allocRetSlots stack1 rest with
      | .error e => .error e
      | .ok (stack2, instrs, extraArgs, slots) =>
        .ok (stack2, ins :: instrs,
          (IrType.l, Value.temp slot.name) :: extraArgs,
          (slot.name, vt) :: slots)

/-- The load-back loop after a multi-result call: one `new_temp` (push)
and one `Load` per slot.  `_emit_call` passes `load_type`; the indirect
variant does not (`useLoadType`). -/
def loadBackSlots (stack : ValueStack) (useLoadType : Bool) :
    List (String × ValueType) → Except CErr (ValueStack × List Instr)
  | [] => .ok (stack, [])
  | (slotName, vt) :: rest =>
    let (result, stack1) := stack.newTemp vt
    match ctlVtypeToIrType vt with
    | .error e => .error e
    | .ok t =>
      match (if useLoadType then
          (ctlVtypeToLoadType vt).map some
        else .ok none) with
      | .error e => .error e
      | .ok loadType =>
        let ins := Instr.load (.temp result.name) t (.temp slotName) loadType
        match loadBackSlots stack1 useLoadType rest with
        | .error e => .error e
        | .ok (stack2, instrs) => .ok (stack2, ins :: instrs)

/-- `_emit_call` from `compiler/instructions/control.py`: pop the
arguments, resolve the mangled symbol, emit the call, and push the
result(s); multi-value results go through out-pointer slots. -/
def emitCall (ctx : FunctionContext) (mctx : ModuleContext) (blk : Block)
    (funcIdx : Nat) : Except CErr (FunctionContext × Block) :=
  match getFuncType ctx.module funcIdx with
  | .error e => .error e
  | .ok ft =>
    match ctx.stack.popN ft.params.length with
    | .error e => .error e
    | .ok (args, stack1) =>
      match buildCallArgs args ft.params with
      | .error e => .error e
      | .ok callArgs =>
        match getFuncName mctx.module funcIdx with
        | .error e => .error e
        | .ok funcName =>
          match ft.results with
          | [] =>
            .ok ({ ctx with stack := stack1 },
              { blk with instructions := blk.instructions ++
                  [.call (.glob funcName) callArgs none none] })
          | [r] =>
            let (result, stack2) := stack1.newTemp r
            match ctlVtypeToIrType r with
            | .error e => .error e
            | .ok t =>
              .ok ({ ctx with stack := stack2 },
                { blk with instructions := blk.instructions ++
                    [.call (.glob funcName) callArgs
                      (some (.temp result.name)) (some t)] })
          | r0 :: restResults =>
            match allocRetSlots stack1 restResults with
            | .error e => .error e
            | .ok (stack2, allocInstrs, extraArgs, retSlots) =>
              let (firstResult, stack3) := stack2.newTemp r0
              match ctlVtypeToIrType r0 with
              | .error e => .error e
              | .ok t0 =>
                let callIns := Instr.call (.glob funcName)
                  (callArgs ++ extraArgs) (some (.temp firstResult.name))
                  (some t0)
                match loadBackSlots stack3 true retSlots with
                | .error e => .error e
                | .ok (stack4, loadInstrs) =>
                  .ok ({ ctx with stack := stack4 },
                    { blk with instructions := blk.instructions ++
                        allocInstrs ++ [callIns] ++ loadInstrs })

/-- The table-pointer load sequence shared by `_emit_call_indirect` and
`_emit_return_call_indirect`: load `__wasm_table`, zero-extend the
index, scale by 8, add, and load the function pointer.  Returns the
updated stack, the five instructions, and the pointer temporary. -/
def tableLoadSeq (stack : ValueStack) (tableIdxName : String) :
    ValueStack × List Instr × String :=
  let (tableBase, stack1) := stack.newTempNoPush .i64
  let i1 := Instr.load (.temp tableBase.name) .l (.glob "__wasm_table") none
  let (idx64, stack2) := stack1.newTempNoPush .i64
  let i2 := Instr.conversion "extuw" (.temp idx64.name) .l (.temp tableIdxName)
  let (offset, stack3) := stack2.newTempNoPush .i64
  let i3 := Instr.binaryOp (.temp offset.name) .l "mul" (.temp idx64.name)
    (.intConst 8)
  let (addr, stack4) := stack3.newTempNoPush .i64
  let i4 := Instr.binaryOp (.temp addr.name) .l "add" (.temp tableBase.name)
    (.temp offset.name)
  let (funcPtr, stack5) := stack4.newTempNoPush .i64
  let i5 := Instr.load (.temp funcPtr.name) .l (.temp addr.name) none
  (stack5, [i1, i2, i3, i4, i5], funcPtr.name)

/-- `_emit_call_indirect` from `compiler/instructions/control.py`. -/
def emitCallIndirect (ctx : FunctionContext) (blk : Block) (typeIdx : Nat) :
    Except CErr (FunctionContext × Block) :=
  match ctx.module.types.get? typeIdx with
  | none => .error (.indexError "list index out of range")
  | some compTy =>
    match compTy with
    | .struct _ => .error (.attributeError "no attribute params")
    | .array _ => .error (.attributeError "no attribute params")
    | .func ft =>
      match ctx.stack.pop with
      | .error e => .error e
      | .ok (tableIdx, stack1) =>
        match ValueStack.popN stack1 ft.params.length with
        | .error e => .error e
        | .ok (args, stack2) =>
          match buildCallArgs args ft.params with
          | .error e => .error e
          | .ok callArgs =>
            let (stack3, tblInstrs, funcPtrName) :=
              tableLoadSeq stack2 tableIdx.name
            match ft.results with
            | [] =>
              .ok ({ ctx with stack := stack3 },
                { blk with instructions := blk.instructions ++ tblInstrs ++
                    [.call (.temp funcPtrName) callArgs none none] })
            | [r] =>
              let (result, stack4) := stack3.newTemp r
              match ctlVtypeToIrType r with
              | .error e => .error e
              | .ok t =>
                .ok ({ ctx with stack := stack4 },
                  { blk with instructions := blk.instructions ++ tblInstrs ++
                      [.call (.temp funcPtrName) callArgs
                        (some (.temp result.name)) (some t)] })
            | r0 :: restResults =>
              match allocRetSlots stack3 restResults with
              | .error e => .error e
              | .ok (stack4, allocInstrs, extraArgs, retSlots) =>
                let (firstResult, stack5) := stack4.newTemp r0
                match ctlVtypeToIrType r0 with
                | .error e => .error e
                | .ok t0 =>
                  let callIns := Instr.call (.temp funcPtrName)
                    (callArgs ++ extraArgs) (some (.temp firstResult.name))
                    (some t0)
                  match loadBackSlots stack5 false retSlots with
                  | .error e => .error e
                  | .ok (stack6, loadInstrs) =>
                    .ok ({ ctx with stack := stack6 },
                      { blk with instructions := blk.instructions ++
                          tblInstrs ++ allocInstrs ++ [callIns] ++ loadInstrs })

/-- The self-tail-call store loop of `_emit_return_call`: for each
parameter, store the new argument value to that parameter's stack
slot. -/
def selfStoreLoop (ctx : FunctionContext) (blk : Block) :
    List StackValue → List ValueType → Nat → Except CErr Block
  | [], [], _ => .ok blk
  | arg :: restArgs, ptype :: restParams, i =>
    match ctx.getLocalAddr i with
    | .error e => .error e
    | .ok addrName =>
      match ctlVtypeToStoreType ptype with
      | .error e => .error e
      | .ok storeType =>
        selfStoreLoop ctx
          { blk with instructions := blk.instructions ++
              [.store storeType (.temp arg.name) (.temp addrName)] }
          restArgs restParams (i + 1)
  | _, _, _ => .error (.valueError "zip argument lengths differ")

/-- `_emit_return_call` from `compiler/instructions/control.py` (lines
656-770).  A tail call to the enclosing function is optimized into
stores to the parameter slots plus a jump to `@entry`; other targets
fall back to call-then-return.  The multi-result fallback touches
`ctx.mv_out_params`, which `FunctionContext` does not define. -/
def emitReturnCall (ctx : FunctionContext) (mctx : ModuleContext)
    (blk : Block) (targetFuncIdx : Nat) :
    Except CErr (FunctionContext × Block) :=
  match getFuncType ctx.module targetFuncIdx with
  | .error e => .error e
  | .ok targetFt =>
    match ctx.stack.popN targetFt.params.length with
    | .error e => .error e
    | .ok (args, stack1) =>
      let ctx1 := { ctx with stack := stack1 }
      if targetFuncIdx == ctx.funcIdx then
        -- self-tail-call optimization: update parameters, jump to entry
        match selfStoreLoop ctx1 blk args targetFt.params 0 with
        | .error e => .error e
        | .ok blk1 =>
          .ok (ctx1, { blk1 with terminator := some (.jump ⟨"entry"⟩) })
      else
        match buildCallArgs args targetFt.params with
        | .error e => .error e
        | .ok callArgs =>
          match getFuncName mctx.module targetFuncIdx with
          | .error e => .error e
          | .ok funcName =>
            match targetFt.results with
            | [] =>
              .ok (ctx1, { blk with
                instructions := blk.instructions ++
                  [.call (.glob funcName) callArgs none none],
                terminator := some (.ret none) })
            | [r] =>
              let (result, stack2) := stack1.newTempNoPush r
              match ctlVtypeToIrType r with
              | .error e => .error e
              | .ok t =>
                .ok ({ ctx1 with stack := stack2 }, { blk with
                  instructions := blk.instructions ++
                    [.call (.glob funcName) callArgs
                      (some (.temp result.name)) (some t)],
                  terminator := some (.ret (some (.temp result.name))) })
            | _ =>
              match allocRetSlots stack1 (targetFt.results.drop 1) with
              | .error e => .error e
              | .ok _ =>
                .error (.attributeError
                  "FunctionContext has no attribute mv_out_params")

/-- `_emit_return_call_indirect` from
`compiler/instructions/control.py` (lines 773-917): indirect tail call
lowered to an indirect call followed by a return. -/
def emitReturnCallIndirect (ctx : FunctionContext) (blk : Block)
    (typeIdx : Nat) : Except CErr (FunctionContext × Block) :=
  match ctx.module.types.get? typeIdx with
  | none => .error (.indexError "list index out of range")
  | some compTy =>
    match compTy with
    | .struct _ => .error (.attributeError "no attribute params")
    | .array _ => .error (.attributeError "no attribute params")
    | .func ft =>
      match ctx.stack.pop with
      | .error e => .error e
      | .ok (tableIdx, stack1) =>
        match ValueStack.popN stack1 ft.params.length with
        | .error e => .error e
        | .ok (args, stack2) =>
          match buildCallArgs args ft.params with
          | .error e => .error e
          | .ok callArgs =>
            let (stack3, tblInstrs, funcPtrName) :=
              tableLoadSeq stack2 tableIdx.name
            match ft.results with
            | [] =>
              .ok ({ ctx with stack := stack3 }, { blk with
                instructions := blk.instructions ++ tblInstrs ++
                  [.call (.temp funcPtrName) callArgs none none],
                terminator := some (.ret none) })
            | [r] =>
              let (result, stack4) := stack3.newTempNoPush r
              match ctlVtypeToIrType r with
              | .error e => .error e
              | .ok t =>
                .ok ({ ctx with stack := stack4 }, { blk with
                  instructions := blk.instructions ++ tblInstrs ++
                    [.call (.temp funcPtrName) callArgs
                      (some (.temp result.name)) (some t)],
                  terminator := some (.ret (some (.temp result.name))) })
            | _ =>
              match allocRetSlots stack3 (ft.results.drop 1) with
              | .error e => .error e
              | .ok _ =>
                .error (.attributeError
                  "FunctionContext has no attribute mv_out_params")

/-- `_emit_return_call_ref` from `compiler/instructions/control.py`
(lines 920-1008): tail call through a function reference on the
stack. -/
def emitReturnCallRef (ctx : FunctionContext) (blk : Block)
    (typeIdx : Nat) : Except CErr (FunctionContext × Block) :=
  match ctx.module.types.get? typeIdx with
  | none => .error (.indexError "list index out of range")
  | some compTy =>
    match compTy with
    | .struct _ => .error (.attributeError "no attribute params")
    | .array _ => .error (.attributeError "no attribute params")
    | .func ft =>
      match ctx.stack.pop with
      | .error e => .error e
      | .ok (funcRef, stack1) =>
        match ValueStack.popN stack1 ft.params.length with
        | .error e => .error e
        | .ok (args, stack2) =>
          match buildCallArgs args ft.params with
          | .error e => .error e
          | .ok callArgs =>
            match ft.results with
            | [] =>
              .ok ({ ctx with stack := stack2 }, { blk with
                instructions := blk.instructions ++
                  [.call (.temp funcRef.name) callArgs none none],
                terminator := some (.ret none) })
            | [r] =>
              let (result, stack3) := stack2.newTempNoPush r
              match ctlVtypeToIrType r with
              | .error e => .error e
              | .ok t =>
                .ok ({ ctx with stack := stack3 }, { blk with
                  instructions := blk.instructions ++
                    [.call (.temp funcRef.name) callArgs
                      (some (.temp result.name)) (some t)],
                  terminator := some (.ret (some (.temp result.name))) })
            | _ =>
              match allocRetSlots stack2 (ft.results.drop 1) with
              | .error e => .error e
              | .ok _ =>
                .error (.attributeError
                  "FunctionContext has no attribute mv_out_params")

/-- The `for i in range(len(frame.result_types))` capture loops of the
`else`/`end` arms: `peek_at(len - 1 - i)` for `i = 0, …, len - 1`, i.e.
the names of the top `len` stack entries from the deepest up.  The
first `peek_at` underflows exactly when fewer than `n` values are on
the stack. -/
def peekTopValues (stack : ValueStack) (n : Nat) :
    Except CErr (List String) :=
  if stack.stack.length < n then
    .error (.compileError "stack underflow on peek_at")
  else .ok (((stack.stack.take n).reverse).map (fun v => v.name))

/-- The phi-emission loop of the `end` arm (one `new_temp` and one phi
node per result type, with the captured then/else temporaries as
incoming values).  Index accesses past the captured lists raise
`IndexError`. -/
def phiLoop (stack : ValueStack) (thenLabel elseLabel : String) :
    List ValueType → List String → List String →
    Except CErr (ValueStack × List PhiNode)
  | [], _, _ => .ok (stack, [])
  | vt :: restTypes, tv :: restThen, ev :: restElse =>
    let (phiResult, stack1) := stack.newTemp vt
    match ctlVtypeToIrType vt with
    | .error e => .error e
    | .ok t =>
      let node : PhiNode := ⟨.temp phiResult.name, t,
        [(⟨thenLabel⟩, .temp tv), (⟨elseLabel⟩, .temp ev)]⟩
      match phiLoop stack1 thenLabel elseLabel restTypes restThen restElse with
      | .error e => .error e
      | .ok (stack2, nodes) => .ok (stack2, node :: nodes)
  | _, _, _ => .error (.indexError "list index out of range")

/-- The `br_table` lowering loop plus the final default branch: for
each target in order, a compare-equal on the popped index and a
conditional branch into a fresh branch block, continuing in a fresh
next block; the block left over at the end jumps to the default
target.  Returns the final state of the block passed in and the blocks
created after it, in creation order. -/
def brTableChain (ctx : FunctionContext) (cur : Block) (idxName : String)
    (defaultDepth : Nat) : List Nat → Nat →
    Except CErr (FunctionContext × Block × List Block)
  | [], _ =>
    match ctx.getBranchTarget defaultDepth with
    | .error e => .error e
    | .ok target => .ok (ctx, emitBranch ctx cur target, [])
  | depth :: restTargets, i =>
    match ctx.getBranchTarget depth with
    | .error e => .error e
    | .ok target =>
      let (checkLabel, ctx1) := ctx.newLabel ("br_table_" ++ toString i)
      let (nextLabel, ctx2) := ctx1.newLabel ("br_table_next_" ++ toString i)
      let (cmpTemp, stack1) := ctx2.stack.newTempNoPush .i32
      let ctx3 := { ctx2 with stack := stack1 }
      let cur1 := { cur with
        instructions := cur.instructions ++
          [.comparison (.temp cmpTemp.name) .w "ceqw" (.temp idxName)
            (.intConst i)],
        terminator := some (.branch (.temp cmpTemp.name) ⟨checkLabel⟩
          ⟨nextLabel⟩) }
      let checkBlock := emitBranch ctx3 (mkBlock (stripAt checkLabel)) target
      match brTableChain ctx3 (mkBlock (stripAt nextLabel)) idxName
          defaultDepth restTargets (i + 1) with
      | .error e => .error e
      | .ok (ctx4, nextFinal, created) =>
        .ok (ctx4, cur1, checkBlock :: nextFinal :: created)

/-- The result of one step of `compile_control_instruction`: the cursor
after the operand reads, the updated context, the final state of the
block that was current (`blk`), the blocks registered with
`func.add_block` in creation order (`created`), and the Python return
value (`some b` = the new current block, `none` = unchanged). -/
structure CtlOut where
  pos : Nat
  ctx : FunctionContext
  blk : Block
  created : List Block := []
  ret : Option Block := none
  deriving DecidableEq, Repr

/-- `compile_control_instruction` from
`compiler/instructions/control.py`: the dispatcher over the control
opcodes 0x00-0x14.  Operands are read from the instruction stream
`data` at `pos` (the `read_operand` callback); `func.add_block` is
modelled by `CtlOut.created`. -/
def compileControl (data : List Nat) (pos : Nat) (opcode : Nat)
    (ctx : FunctionContext) (mctx : ModuleContext) (blk : Block) :
    Except CErr CtlOut :=
  -- unreachable
  if opcode == 0x00 then
    .ok ⟨pos, ctx,
      { blk with
        instructions := blk.instructions ++
          [.call (.glob "__wasm_trap_unreachable") [] none none],
        terminator := some .halt },
      [], none⟩
  -- nop
  else if opcode == 0x01 then
    .ok ⟨pos, ctx, blk, [], none⟩
  -- block
  else if opcode == 0x02 then
    match readBlockType data pos with
    | .error e => .error (.parseError e)
    | .ok (blockType, pos1) =>
      match ctlBlockTypeToResults blockType ctx with
      | .error e => .error e
      | .ok resultTypes =>
        let (endLabel, ctx1) := ctx.newLabel "block_end"
        let frame : CtlFrame :=
          { kind := "block", startDepth := ctx1.stack.depth,
            resultTypes := resultTypes, labelName := endLabel }
        .ok ⟨pos1, ctx1.pushControl frame, blk, [], none⟩
  -- loop
  else if opcode == 0x03 then
    match readBlockType data pos with
    | .error e => .error (.parseError e)
    | .ok (blockType, pos1) =>
      match ctlBlockTypeToResults blockType ctx with
      | .error e => .error e
      | .ok resultTypes =>
        let (loopLabel, ctx1) := ctx.newLabel "loop"
        let blk1 := { blk with terminator := some (.jump ⟨loopLabel⟩) }
        let loopBlock := mkBlock (stripAt loopLabel)
        let frame : CtlFrame :=
          { kind := "loop", startDepth := ctx1.stack.depth,
            resultTypes := resultTypes, labelName := loopLabel }
        .ok ⟨pos1, ctx1.pushControl frame, blk1, [loopBlock],
          some loopBlock⟩
  -- if
  else if opcode == 0x04 then
    match readBlockType data pos with
    | .error e => .error (.parseError e)
    | .ok (blockType, pos1) =>
      match ctlBlockTypeToResults blockType ctx with
      | .error e => .error e
      | .ok resultTypes =>
        match ctx.stack.pop with
        | .error e => .error e
        | .ok (cond, stack1) =>
          let ctx1 := { ctx with stack := stack1 }
          let (thenLabel, ctx2) := ctx1.newLabel "then"
          let (elseLabel, ctx3) := ctx2.newLabel "else"
          let (endLabel, ctx4) := ctx3.newLabel "if_end"
          let blk1 := { blk with terminator := some (.branch
            (.temp cond.name) ⟨thenLabel⟩ ⟨elseLabel⟩) }
          let thenBlock := mkBlock (stripAt thenLabel)
          let frame : CtlFrame :=
            { kind := "if", startDepth := ctx4.stack.depth,
              resultTypes := resultTypes, labelName := endLabel,
              elseLabel := some elseLabel, endLabel := some endLabel }
          .ok ⟨pos1, ctx4.pushControl frame, blk1, [thenBlock],
            some thenBlock⟩
  -- else
  else if opcode == 0x05 then
    match ctx.controlStack with
    | [] => .error (.indexError "list index out of range")
    | frame :: restFrames =>
      if frame.kind ≠ "if" then
        .error (.valueError "else without matching if")
      else
        match (if frame.resultTypes ≠ [] then
            match peekTopValues ctx.stack frame.resultTypes.length with
            | .error e => .error e
            | .ok thenValues =>
              match ctx.stack.popN frame.resultTypes.length with
              | .error e => .error e
              | .ok (_, stack1) =>
                let frame1 := { frame with
                  thenValues := some thenValues,
                  thenLabel := some blk.name }
                .ok ({ ctx with
                  stack := stack1,
                  controlStack := frame1 :: restFrames }, frame1)
          else .ok (ctx, frame) :
            Except CErr (FunctionContext × CtlFrame)) with
        | .error e => .error e
        | .ok (ctx1, frame1) =>
          match frame1.endLabel with
          | none => .error (.assertionError "end_label is None")
          | some endLabel =>
            let blk1 := { blk with terminator := some (.jump ⟨endLabel⟩) }
            match frame1.elseLabel with
            | none => .error (.assertionError "else_label is None")
            | some elseLabel =>
              let frame2 := { frame1 with elseLabel := none }
              let ctx2 := { ctx1 with
                controlStack := frame2 :: ctx1.controlStack.tail }
              let elseBlock := mkBlock (stripAt elseLabel)
              .ok ⟨pos, ctx2, blk1, [elseBlock], some elseBlock⟩
  -- end
  else if opcode == 0x0B then
    match ctx.controlStack with
    | [] => .ok ⟨pos, ctx, blk, [], none⟩  -- end of function
    | frame :: restFrames =>
      let ctx1 := { ctx with controlStack := restFrames }
      -- if without else: emit the pending else label jumping to end
      let elseTruthy := match frame.elseLabel with
        | some s => s ≠ ""
        | none => false
      match (if frame.kind == "if" && elseTruthy then
          match frame.endLabel with
          | none => .error (.assertionError "end_label is None")
          | some endLabel =>
            match frame.elseLabel with
            | some elseLabel =>
              .ok ({ blk with terminator := some (.jump ⟨endLabel⟩) },
                [{ mkBlock (stripAt elseLabel) with
                  terminator := some (.jump ⟨endLabel⟩) }])
            | none => .error (.assertionError "else_label is None")
        else .ok (blk, []) : Except CErr (Block × List Block)) with
      | .error e => .error e
      | .ok (blkA, createdA) =>
        -- if/else with results: synthesize phi nodes in the end block
        if frame.kind == "if" && frame.thenValues ≠ none &&
            frame.resultTypes ≠ [] then
          match peekTopValues ctx1.stack frame.resultTypes.length with
          | .error e => .error e
          | .ok elseValues =>
            let elseLabelForPhi := blkA.name
            match ctx1.stack.popN frame.resultTypes.length with
            | .error e => .error e
            | .ok (_, stackB) =>
              let blkB := { blkA with
                terminator := some (.jump ⟨frame.labelName⟩) }
              -- then_label was recorded together with then_values
              let thenLabelForPhi := frame.thenLabel.getD ""
              match phiLoop stackB thenLabelForPhi elseLabelForPhi
                  frame.resultTypes (frame.thenValues.getD [])
                  elseValues with
              | .error e => .error e
              | .ok (stackC, phis) =>
                let endBlock := { mkBlock (stripAt frame.labelName) with
                  phis := phis }
                .ok ⟨pos, { ctx1 with stack := stackC }, blkB,
                  createdA ++ [endBlock], some endBlock⟩
        -- block and if without results: start the end-label block
        else if frame.kind ≠ "loop" then
          let blkC := if blkA.terminator = none then
              { blkA with terminator := some (.jump ⟨frame.labelName⟩) }
            else blkA
          let endBlock := mkBlock (stripAt frame.labelName)
          .ok ⟨pos, ctx1, blkC, createdA ++ [endBlock], some endBlock⟩
        else .ok ⟨pos, ctx1, blkA, createdA, none⟩
  -- br
  else if opcode == 0x0C then
    match readU32 data pos with
    | .error e => .error (.parseError e)
    | .ok (depth, pos1) =>
      match ctx.getBranchTarget depth with
      | .error e => .error e
      | .ok target => .ok ⟨pos1, ctx, emitBranch ctx blk target, [], none⟩
  -- br_if
  else if opcode == 0x0D then
    match readU32 data pos with
    | .error e => .error (.parseError e)
    | .ok (depth, pos1) =>
      match ctx.stack.pop with
      | .error e => .error e
      | .ok (cond, stack1) =>
        let ctx1 := { ctx with stack := stack1 }
        match ctx1.getBranchTarget depth with
        | .error e => .error e
        | .ok target =>
          let (contLabel, ctx2) := ctx1.newLabel "br_if_cont"
          let (branchLabel, ctx3) := ctx2.newLabel "br_if_branch"
          let blk1 := { blk with terminator := some (.branch
            (.temp cond.name) ⟨branchLabel⟩ ⟨contLabel⟩) }
          let branchBlock :=
            emitBranch ctx3 (mkBlock (stripAt branchLabel)) target
          let contBlock := mkBlock (stripAt contLabel)
          .ok ⟨pos1, ctx3, blk1, [branchBlock, contBlock], some contBlock⟩
  -- br_table
  else if opcode == 0x0E then
    match readU32 data pos with
    | .error e => .error (.parseError e)
    | .ok (numTargets, pos1) =>
      match readU32VectorLoop data numTargets pos1 with
      | .error e => .error (.parseError e)
      | .ok (targets, pos2) =>
        match readU32 data pos2 with
        | .error e => .error (.parseError e)
        | .ok (defaultTarget, pos3) =>
          match ctx.stack.pop with
          | .error e => .error e
          | .ok (idx, stack1) =>
            let ctx1 := { ctx with stack := stack1 }
            match brTableChain ctx1 blk idx.name defaultTarget targets 0 with
            | .error e => .error e
            | .ok (ctx2, blkFinal, created) =>
              .ok ⟨pos3, ctx2, blkFinal, created, none⟩
  -- return
  else if opcode == 0x0F then
    match emitReturn ctx blk with
    | .error e => .error e
    | .ok (ctx1, blk1) => .ok ⟨pos, ctx1, blk1, [], none⟩
  -- call
  else if opcode == 0x10 then
    match readU32 data pos with
    | .error e => .error (.parseError e)
    | .ok (funcIdx, pos1) =>
      match emitCall ctx mctx blk funcIdx with
      | .error e => .error e
      | .ok (ctx1, blk1) => .ok ⟨pos1, ctx1, blk1, [], none⟩
  -- call_indirect
  else if opcode == 0x11 then
    match readU32 data pos with
    | .error e => .error (.parseError e)
    | .ok (typeIdx, pos1) =>
      match readU32 data pos1 with
      | .error e => .error (.parseError e)
      | .ok (_, pos2) =>
        match emitCallIndirect ctx blk typeIdx with
        | .error e => .error e
        | .ok (ctx1, blk1) => .ok ⟨pos2, ctx1, blk1, [], none⟩
  -- return_call
  else if opcode == 0x12 then
    match readU32 data pos with
    | .error e => .error (.parseError e)
    | .ok (funcIdx, pos1) =>
      match emitReturnCall ctx mctx blk funcIdx with
      | .error e => .error e
      | .ok (ctx1, blk1) => .ok ⟨pos1, ctx1, blk1, [], none⟩
  -- return_call_indirect
  else if opcode == 0x13 then
    match readU32 data pos with
    | .error e => .error (.parseError e)
    | .ok (typeIdx, pos1) =>
      match readU32 data pos1 with
      | .error e => .error (.parseError e)
      | .ok (_, pos2) =>
        match emitReturnCallIndirect ctx blk typeIdx with
        | .error e => .error e
        | .ok (ctx1, blk1) => .ok ⟨pos2, ctx1, blk1, [], none⟩
  -- return_call_ref
  else if opcode == 0x14 then
    match readU32 data pos with
    | .error e => .error (.parseError e)
    | .ok (typeIdx, pos1) =>
      match emitReturnCallRef ctx blk typeIdx with
      | .error e => .error e
      | .ok (ctx1, blk1) => .ok ⟨pos1, ctx1, blk1, [], none⟩
  -- not a control instruction
  else .ok ⟨pos, ctx, blk, [], none⟩

/-! ## Function-level code generation (`compiler/codegen.py`) -/

/-- The dispatch call of `_compile_instruction` (`compiler/codegen.py`
lines 336-338), reached for every opcode outside the exception range
0x06-0x09/0x18-0x19 (only those are intercepted first, by a
correctly-invoked `compile_exception_instruction`).  The call supplies
five positional arguments — `opcode, func_ctx, qbe_func, block,
read_operand` — to the six-parameter `compile_control_instruction`
(`compiler/instructions/control.py` lines 38-45, where `mod_ctx` is the
third parameter), so Python binds `mod_ctx := qbe_func`,
`func := block`, `block := read_operand` and raises `TypeError` for the
missing final argument before the callee body ever runs.  The unused
arguments record what the call site passes along. -/
def dispatchControlCall (_opcode : Nat) (_ctx : FunctionContext)
    (_blk : Block) : Except CErr CtlOut :=
  .error (.typeError
    "compile_control_instruction() missing 1 required positional argument: read_operand")

/-- `_vtype_to_ir_type` from `compiler/codegen.py` (this variant maps
every reference type to `l`). -/
def cgVtypeToIrType (vtype : ValueType) : Except CErr IrType :=
  if vtype == .i32 then .ok .w
  else if vtype == .i64 then .ok .l
  else if vtype == .f32 then .ok .s
  else if vtype == .f64 then .ok .d
  else if vtype.isReference then .ok .l
  else .error (.valueError "unknown value type")

/-- The parameter-list construction of `_compile_function`
(`compiler/codegen.py` lines 201-206): one `(irtype, "p<i>")` pair per
parameter. -/
def buildParams : List ValueType → Nat →
    Except CErr (List (IrType × String))
  | [], _ => .ok []
  | p :: rest, i =>
    match cgVtypeToIrType p with
    | .error e => .error e
    | .ok t =>
      match buildParams rest (i + 1) with
      | .error e => .error e
      | .ok l => .ok ((t, "p" ++ toString i) :: l)

/-- The signature construction of `_compile_function`
(`compiler/codegen.py` lines 201-220): the parameter list and the
return type.  Zero results return void, one result returns its mapped
IL type, and two or more results raise
`CompileError("multi-value return not yet supported")`. -/
def compileFunctionHeader (ft : FuncType) :
    Except CErr (List (IrType × String) × Option IrType) :=
  match buildParams ft.params 0 with
  | .error e => .error e
  | .ok params =>
    match ft.results with
    | [] => .ok (params, none)
    | [r] =>
      match cgVtypeToIrType r with
      | .error e => .error e
      | .ok t => .ok (params, some t)
    | _ => .error (.compileError "multi-value return not yet supported")

/-! ## Concrete fixtures for the theorems below -/

/-- Fixture: a module with one exported function named
`my_exported_func` (the module built by the repository's own
`TestModuleContext` unit test). -/
def exportTestModule : WasmModule :=
  { exports := [⟨"my_exported_func", .func, 0⟩] }

/-- Fixture: a module with one imported function `add_numbers`. -/
def importTestModule : WasmModule :=
  { imports := [⟨"env", "add_numbers", .func, .typeIdx 0⟩] }

/-- Fixture: a module with a single defined void function. -/
def voidFuncModule : WasmModule :=
  { types := [.func ⟨[], []⟩], funcTypes := [0] }

/-- Fixture: the function context at the start of compiling the body of
`voidFuncModule`'s function. -/
def c6Ctx : FunctionContext :=
  { module := voidFuncModule, funcIdx := 0, funcType := ⟨[], []⟩ }

/-- Fixture: the block state after compiling one `unreachable`: the trap
call has been appended and the terminator set to `halt`. -/
def c6Trap1 : Block :=
  { name := "entry",
    instructions := [.call (.glob "__wasm_trap_unreachable") [] none none],
    terminator := some .halt }

/-- Fixture: the same block after a second `unreachable` in dead code: a
second trap call sits after the terminator was already set. -/
def c6Trap2 : Block :=
  { name := "entry",
    instructions := [.call (.glob "__wasm_trap_unreachable") [] none none,
      .call (.glob "__wasm_trap_unreachable") [] none none],
    terminator := some .halt }

/-- Fixture: a module with one defined `(i32) → i32` function. -/
def selfCallModule : WasmModule :=
  { types := [.func ⟨[.i32], [.i32]⟩], funcTypes := [0] }

/-- Fixture: a context mid-body for `selfCallModule`'s function 0, with
one argument value `t0` on the stack and the parameter slot address
`local_addr0` recorded. -/
def c7Ctx : FunctionContext :=
  { module := selfCallModule, funcIdx := 0, funcType := ⟨[.i32], [.i32]⟩,
    stack := { stack := [⟨"t0", .i32⟩], tempCounter := 1 },
    localAddrs := [(0, "local_addr0")] }

/-- Fixture: the block the self-tail-call lowering of `return_call 0`
produces from `c7Ctx`: the argument stored to the parameter slot,
then an unconditional jump to the entry block, and no call
instruction. -/
def selfTailBlock : Block :=
  { name := "b",
    instructions := [.store "storew" (.temp "t0") (.temp "local_addr0")],
    terminator := some (.jump ⟨"entry"⟩) }

/-- Fixture: a single control frame marked unreachable. -/
def unreachableFrame : VFrame :=
  { kind := "block", startDepth := 0, resultTypes := [],
    unreachable := true }

/-- Fixture: a validation context with an empty value stack whose
innermost control frame is marked unreachable. -/
def unreachableVCtx : VContext :=
  { module := {},
    valueStack := [],
    controlStack := [unreachableFrame] }

end Waq

namespace Waq

/-- C1: the claim states that a defined function with two or more
result types compiles to an IL function using the out-pointer
convention, "in particular compile succeeds on such a function rather
than failing".  On the code, `_compile_function` raises
`CompileError("multi-value return not yet supported")` as soon as the
function type has two results (here on the type `() → (i32, i32)`),
while a single-result signature is built normally — so compilation
fails rather than succeeding, contradicting the claim (and the
repository's own multi-value tests). -/
theorem C1_multivalue_return_raises :
    compileFunctionHeader ⟨[], [.i32, .i32]⟩ =
      .error (.compileError "multi-value return not yet supported") ∧
    compileFunctionHeader ⟨[.i32, .i64], [.i32]⟩ =
      .ok ([(.w, "p0"), (.l, "p1")], some .w) ∧
    compileFunctionHeader ⟨[.i32], []⟩ = .ok ([(.w, "p0")], none) := by
  decide

/-- C2: the claim states that the decoder parses the limits flags byte
so that flag values 0x04 and 0x05 mark the memory as 64-bit.  On the
code, `read_limits` consults only bit 0x01 (presence of max) and
`read_memory_type` always constructs `MemoryType` with the default
`is_memory64 = False`: parsing the memory entries `[0x04, 0x01]` and
`[0x05, 0x01, 0x0A]` yields `isMemory64 = false` both times (the
repository's own `test_memory64.py` asserts `True` here). -/
theorem C2_memory64_flag_dropped :
    readMemoryType [0x04, 0x01] 0 =
      .ok ({ limits := ⟨1, none⟩, isMemory64 := false }, 2) ∧
    readMemoryType [0x05, 0x01, 0x0A] 0 =
      .ok ({ limits := ⟨1, some 10⟩, isMemory64 := false }, 3) ∧
    readMemoryType [0x00, 0x01] 0 =
      .ok ({ limits := ⟨1, none⟩, isMemory64 := false }, 2) ∧
    readMemoryType [0x01, 0x01, 0x0A] 0 =
      .ok ({ limits := ⟨1, some 10⟩, isMemory64 := false }, 3) := by
  decide

/-- C3: the claim states that an exported function whose name is not
`_start` and does not begin with `wasm_`/`__wasm_` gets the native
symbol `wasm_<name>`.  On the code, `ModuleContext.get_func_name`
returns the export name unchanged: for the export `my_exported_func`
(neither `_start` nor `wasm_`-prefixed) it yields `my_exported_func`,
not `wasm_my_exported_func` (which the repository's own
`test_get_func_name_exported` asserts).  Imported and internal
functions are named as described. -/
theorem C3_export_name_unmangled :
    getFuncName exportTestModule 0 = .ok "my_exported_func" ∧
    getFuncName importTestModule 0 = .ok "add_numbers" ∧
    getFuncName {} 5 = .ok "__wasm_func_5" := by
  decide

/-- C4: the claim states that decoding the signed LEB128 encoding of
any `n` in `[-2^63, 2^63)` yields `n`.  On the code, the decoder's
sign-extension guard `shift < 64` never fires for the 10-byte
encodings of `n ∈ [-2^63, -2^62)` (where `shift` reaches 70), and
unlike `read_s32_leb128` there is no final wrap into the signed range:
decoding the encoding of `-2^63` returns the positive value
`127 * 2^63`.  Shorter encodings (`-1`) and positive 10-byte encodings
(`2^63 - 1`) do round-trip. -/
theorem C4_sleb64_roundtrip_fails_at_min_int64 :
    sleb128Encode (-(2 ^ 63)) =
      [0x80, 0x80, 0x80, 0x80, 0x80, 0x80, 0x80, 0x80, 0x80, 0x7F] ∧
    readS64 (sleb128Encode (-(2 ^ 63))) 0 = .ok (127 * 2 ^ 63, 10) ∧
    (127 * 2 ^ 63 : Int) ≠ -(2 ^ 63) ∧
    readS64 (sleb128Encode (-1)) 0 = .ok (-1, 1) ∧
    readS64 (sleb128Encode (2 ^ 63 - 1)) 0 = .ok (2 ^ 63 - 1, 10) ∧
    readS64 (sleb128Encode (-(2 ^ 62))) 0 = .ok (-(2 ^ 62), 9) := by
  decide

/-- C6: the claim states that for a validated body no instruction is
appended to a basic block after its terminator is set and no
terminator is overwritten.  The body `unreachable; unreachable; end`
(bytes `00 00 0B`) of a void function validates — code after
`unreachable` is dead — yet compiling the first `unreachable`
terminates the entry block with `halt`, and compiling the second one
appends another `__wasm_trap_unreachable` call to that
already-terminated block and assigns its terminator again, as the
evaluation below shows step by step. -/
theorem C6_dead_code_appends_after_terminator :
    compileControl [] 0 0x00 c6Ctx ⟨voidFuncModule⟩ (mkBlock "entry") =
      .ok ⟨0, c6Ctx, c6Trap1, [], none⟩ ∧
    c6Trap1.terminator = some .halt ∧
    compileControl [] 0 0x00 c6Ctx ⟨voidFuncModule⟩ c6Trap1 =
      .ok ⟨0, c6Ctx, c6Trap2, [], none⟩ ∧
    c6Trap2.instructions.length = c6Trap1.instructions.length + 1 ∧
    c6Trap2.terminator = some .halt ∧
    compileControl [] 0 0x0B c6Ctx ⟨voidFuncModule⟩ c6Trap2 =
      .ok ⟨0, c6Ctx, c6Trap2, [], none⟩ := by
  decide

/-- C5 (counterexample): the claim states that with an empty value
stack inside an unreachable region, a pop yields a bottom type that
passes `pop_expect` for every expected type, recording no diagnostic.
At the concrete context below (empty stack, innermost frame
unreachable) `pop_expect(f64)` returns `False` and records a
type-mismatch error, because `pop_value` returns the dummy type `i32`
rather than a bottom type. -/
theorem C5_popexpect_f64_records_mismatch :
    (popExpect unreachableVCtx .f64).fst = false ∧
    (popExpect unreachableVCtx .f64).snd.issues =
      [⟨.error, "type mismatch: expected f64, got i32", none, none,
        some 0⟩] := by
  decide

/-- C5 (amended): whenever the value stack is empty and the innermost
control frame is marked unreachable, popping a value yields the dummy
type `i32` (not a bottom type), so a `pop_expect` check succeeds
exactly when the expected type is `i32`; no underflow diagnostic is
ever recorded for such pops, but a type-mismatch diagnostic is
recorded whenever the expected type differs from `i32`. -/
theorem C5_unreachable_pop_yields_dummy_i32 (ctx : VContext)
    (f : VFrame) (rest : List VFrame) (expected : ValueType)
    (hstack : ctx.valueStack = [])
    (hctl : ctx.controlStack = f :: rest)
    (hunr : f.unreachable = true) :
    popValue ctx = (some .i32, ctx) ∧
    ((popExpect ctx expected).fst = true ↔ expected = .i32) ∧
    (expected = .i32 → popExpect ctx expected = (true, ctx)) ∧
    (expected ≠ .i32 → ∃ loc,
      (popExpect ctx expected).snd.issues = ctx.issues ++
        [⟨.error, "type mismatch: expected " ++ expected.toStr ++
          ", got " ++ ValueType.i32.toStr, loc, ctx.currentFuncIdx,
          some ctx.currentOffset⟩]) := by
  have hpv : popValue ctx = (some .i32, ctx) := by
    simp [popValue, hstack, hctl, hunr]
  have key : popExpect ctx expected =
      if ValueType.i32 = expected then (true, ctx)
      else (false, vError ctx ("type mismatch: expected " ++
        expected.toStr ++ ", got " ++ ValueType.i32.toStr)) := by
    by_cases h : ValueType.i32 = expected
    · simp [popExpect, hpv, h]
    · simp [popExpect, hpv, h, Ne.symm h]
  refine ⟨hpv, ?_, ?_, ?_⟩
  · by_cases h : expected = .i32
    · subst h; simp [key]
    · rw [key, if_neg (fun hh => h hh.symm)]
      simp [h]
  · intro h; subst h; simp [key]
  · intro h
    rw [key, if_neg (fun hh => h hh.symm)]
    refine ⟨(match ctx.currentFuncIdx with
      | none => none
      | some i => some (if 0 < ctx.currentOffset then
          "function " ++ toString i ++ ", offset " ++
            toString ctx.currentOffset
        else "function " ++ toString i)), ?_⟩
    simp [vError]

/-- C5 (witness): the amended statement instantiated at the concrete
unreachable context with expected type `f64`. -/
theorem C5_unreachable_pop_witness :
    popValue unreachableVCtx = (some .i32, unreachableVCtx) ∧
    ((popExpect unreachableVCtx .f64).fst = true ↔
      ValueType.f64 = .i32) ∧
    (ValueType.f64 = .i32 →
      popExpect unreachableVCtx .f64 = (true, unreachableVCtx)) ∧
    (ValueType.f64 ≠ .i32 → ∃ loc,
      (popExpect unreachableVCtx .f64).snd.issues =
        unreachableVCtx.issues ++
        [⟨.error, "type mismatch: expected " ++ ValueType.f64.toStr ++
          ", got " ++ ValueType.i32.toStr, loc,
          unreachableVCtx.currentFuncIdx,
          some unreachableVCtx.currentOffset⟩]) :=
  C5_unreachable_pop_yields_dummy_i32 unreachableVCtx
    unreachableFrame [] .f64 rfl rfl rfl

/-! ## Cursor-advance lemmas for the reader primitives -/

theorem readByte_ok_iff {data : List Nat} {pos b p1 : Nat}
    (h : readByte data pos = .ok (b, p1)) :
    p1 = pos + 1 ∧ pos < data.length := by
  unfold readByte at h
  split at h
  · simp only [Except.ok.injEq, Prod.mk.injEq] at h
    exact ⟨h.2.symm, by assumption⟩
  · exact absurd h (by simp)

theorem readBytes_ok_pos {data : List Nat} {pos n : Nat} {bs : List Nat}
    {p1 : Nat} (h : readBytes data pos n = .ok (bs, p1)) :
    p1 = pos + n := by
  unfold readBytes at h
  split at h
  · exact absurd h (by simp)
  · simp only [Except.ok.injEq, Prod.mk.injEq] at h
    exact h.2.symm

theorem readU32Loop_lt (data : List Nat) :
    ∀ bound pos result shift v p1,
      readU32Loop data bound pos result shift = .ok (v, p1) → pos < p1 := by
  intro bound
  induction bound with
  | zero =>
    intro pos r s v p1 h
    simp [readU32Loop] at h
  | succ n ih =>
    intro pos r s v p1 h
    rw [readU32Loop] at h
    split at h
    · exact absurd h (by simp)
    · rename_i byte pos1 heq
      have hb := readByte_ok_iff heq
      dsimp only at h
      split at h
      · simp only [Except.ok.injEq, Prod.mk.injEq] at h
        omega
      · split at h
        · exact absurd h (by simp)
        · have := ih pos1 _ _ v p1 h
          omega

theorem readU32_lt {data : List Nat} {pos v p1 : Nat}
    (h : readU32 data pos = .ok (v, p1)) : pos < p1 :=
  readU32Loop_lt data _ pos 0 0 v p1 h

theorem readS32Loop_lt (data : List Nat) :
    ∀ bound pos result shift v p1,
      readS32Loop data bound pos result shift = .ok (v, p1) → pos < p1 := by
  intro bound
  induction bound with
  | zero =>
    intro pos r s v p1 h
    simp [readS32Loop] at h
  | succ n ih =>
    intro pos r s v p1 h
    rw [readS32Loop] at h
    split at h
    · exact absurd h (by simp)
    · rename_i byte pos1 heq
      have hb := readByte_ok_iff heq
      dsimp only at h
      split at h
      · simp only [Except.ok.injEq, Prod.mk.injEq] at h
        omega
      · split at h
        · exact absurd h (by simp)
        · have := ih pos1 _ _ v p1 h
          omega

theorem readS32_lt {data : List Nat} {pos p1 : Nat} {v : Int}
    (h : readS32 data pos = .ok (v, p1)) : pos < p1 :=
  readS32Loop_lt data _ pos 0 0 v p1 h

theorem readS64Loop_lt (data : List Nat) :
    ∀ bound pos result shift v p1,
      readS64Loop data bound pos result shift = .ok (v, p1) → pos < p1 := by
  intro bound
  induction bound with
  | zero =>
    intro pos r s v p1 h
    simp [readS64Loop] at h
  | succ n ih =>
    intro pos r s v p1 h
    rw [readS64Loop] at h
    split at h
    · exact absurd h (by simp)
    · rename_i byte pos1 heq
      have hb := readByte_ok_iff heq
      dsimp only at h
      split at h
      · split at h <;>
          (simp only [Except.ok.injEq, Prod.mk.injEq] at h; omega)
      · split at h
        · exact absurd h (by simp)
        · have := ih pos1 _ _ v p1 h
          omega

theorem readS64_lt {data : List Nat} {pos p1 : Nat} {v : Int}
    (h : readS64 data pos = .ok (v, p1)) : pos < p1 :=
  readS64Loop_lt data _ pos 0 0 v p1 h

theorem readValueType_lt {data : List Nat} {pos p1 : Nat} {v : ValueType}
    (h : readValueType data pos = .ok (v, p1)) : pos < p1 := by
  unfold readValueType at h
  split at h
  · exact absurd h (by simp)
  · rename_i byte pos' heq
    have hb := readByte_ok_iff heq
    split at h
    · simp only [Except.ok.injEq, Prod.mk.injEq] at h
      omega
    · exact absurd h (by simp)

theorem readBlockType_lt {data : List Nat} {pos p1 : Nat} {bt : BlockType}
    (h : readBlockType data pos = .ok (bt, p1)) : pos < p1 := by
  unfold readBlockType at h
  split at h
  · exact absurd h (by simp)
  · split at h
    · split at h
      · exact absurd h (by simp)
      · rename_i heq
        have hb := readByte_ok_iff heq
        simp only [Except.ok.injEq, Prod.mk.injEq] at h
        omega
    · split at h
      · split at h
        · exact absurd h (by simp)
        · rename_i heq
          have := readValueType_lt heq
          simp only [Except.ok.injEq, Prod.mk.injEq] at h
          omega
      · split at h
        · exact absurd h (by simp)
        · rename_i heq
          have := readS32_lt heq
          simp only [Except.ok.injEq, Prod.mk.injEq] at h
          omega

theorem readInitExprLoop_le (data : List Nat) :
    ∀ bound pos depth endPos,
      readInitExprLoop data bound pos depth = .ok endPos →
      pos ≤ endPos ∧ (0 < depth → pos < endPos) := by
  intro bound
  induction bound with
  | zero =>
    intro pos depth endPos h
    match depth, h with
    | 0, h =>
      simp only [readInitExprLoop, Except.ok.injEq] at h
      omega
    | d + 1, h => simp [readInitExprLoop] at h
  | succ n ih =>
    intro pos depth endPos h
    match depth, h with
    | 0, h =>
      simp only [readInitExprLoop, Except.ok.injEq] at h
      omega
    | d + 1, h =>
      rw [readInitExprLoop] at h
      split at h
      · exact absurd h (by simp)
      · rename_i opcode pos1 heq
        have hb := readByte_ok_iff heq
        split at h
        · have := ih pos1 _ _ h
          omega
        · split at h
          · split at h
            · exact absurd h (by simp)
            · rename_i heq2
              have h2 := readBlockType_lt heq2
              have := ih _ _ _ h
              omega
          · split at h
            · split at h
              · exact absurd h (by simp)
              · rename_i heq2
                have h2 := readS64_lt heq2
                have := ih _ _ _ h
                omega
            · split at h
              · split at h
                · exact absurd h (by simp)
                · rename_i heq2
                  have h2 := readBytes_ok_pos heq2
                  have := ih _ _ _ h
                  omega
              · split at h
                · split at h
                  · exact absurd h (by simp)
                  · rename_i heq2
                    have h2 := readBytes_ok_pos heq2
                    have := ih _ _ _ h
                    omega
                · split at h
                  · split at h
                    · exact absurd h (by simp)
                    · rename_i heq2
                      have h2 := readU32_lt heq2
                      have := ih _ _ _ h
                      omega
                  · split at h
                    · split at h
                      · exact absurd h (by simp)
                      · rename_i heq2
                        have h2 := readByte_ok_iff heq2
                        have := ih _ _ _ h
                        omega
                    · split at h
                      · split at h
                        · exact absurd h (by simp)
                        · rename_i heq2
                          have h2 := readU32_lt heq2
                          have := ih _ _ _ h
                          omega
                      · have := ih _ _ _ h
                        omega

/-- C8: every byte sequence shorter than 8 bytes, with a wrong 4-byte
magic, or with a little-endian version word different from 1 is
rejected with a `ParseError`, and every well-formed header is accepted
with the cursor moved to byte 8. -/
theorem C8_header_rejection :
    (∀ data : List Nat,
      data.length < 8 ∨ data.take 4 ≠ wasmMagic ∨
        leNat ((data.drop 4).take 4) ≠ 1 →
      ∃ e, parseHeader data = .error e) ∧
    (∀ data : List Nat,
      8 ≤ data.length → data.take 4 = wasmMagic →
        leNat ((data.drop 4).take 4) = 1 →
      parseHeader data = .ok 8) := by
  constructor
  · intro data h
    unfold parseHeader readBytes
    by_cases h4 : 0 + 4 > data.length
    · simp [h4]
    · by_cases hm : (data.drop 0).take 4 = wasmMagic
      · rw [List.drop_zero] at hm
        by_cases h8 : 0 + 4 + 4 > data.length
        · simp [h4, hm, h8]
        · have hver : leNat ((data.drop 4).take 4) ≠ 1 := by
            rcases h with h | h | h
            · omega
            · exact absurd hm h
            · exact h
          simp [h4, hm, h8, hver]
      · rw [List.drop_zero] at hm
        simp [h4, hm]
  · intro data hlen hmagic hver
    have h4 : ¬ (0 + 4 > data.length) := by omega
    have h8 : ¬ (0 + 4 + 4 > data.length) := by omega
    unfold parseHeader readBytes
    simp [h4, h8, hmagic, hver]

/-- C8 (witness): the two directions instantiated on a truncated input
and on a well-formed 8-byte header. -/
theorem C8_header_rejection_witness :
    (∃ e, parseHeader [0x00, 0x61, 0x73] = .error e) ∧
    parseHeader [0x00, 0x61, 0x73, 0x6D, 0x01, 0x00, 0x00, 0x00] =
      .ok 8 :=
  ⟨C8_header_rejection.1 [0x00, 0x61, 0x73] (by decide),
   C8_header_rejection.2 [0x00, 0x61, 0x73, 0x6D, 0x01, 0x00, 0x00, 0x00]
     (by decide) (by decide) (by decide)⟩

/-- C9: the decoder's loops strictly advance the byte cursor on each
step — one section-loop iteration of `parse_module` (id byte, size,
payload slice) always lands strictly beyond its starting position, as
do a successful `_read_init_expr` scan and a LEB128 read — so the
decoder, embedded here as the total functions `scanModule`,
`sectionScan` and `readInitExpr`, terminates on every finite input. -/
theorem C9_cursor_strictly_advances :
    (∀ (data : List Nat) (pos sectionId p1 : Nat) (payload : List Nat),
      sectionStep data pos = .ok (sectionId, payload, p1) → pos < p1) ∧
    (∀ (data : List Nat) (pos p1 : Nat) (e : List Nat),
      readInitExpr data pos = .ok (e, p1) → pos < p1) ∧
    (∀ (data : List Nat) (pos v p1 : Nat),
      readU32 data pos = .ok (v, p1) → pos < p1) := by
  refine ⟨?_, ?_, ?_⟩
  · intro data pos sectionId p1 payload h
    unfold sectionStep at h
    split at h
    · exact absurd h (by simp)
    · rename_i b pos' heq
      have h1 := readByte_ok_iff heq
      split at h
      · exact absurd h (by simp)
      · rename_i size pos'' heq2
        have h2 := readU32_lt heq2
        split at h
        · exact absurd h (by simp)
        · rename_i bs pos''' heq3
          have h3 := readBytes_ok_pos heq3
          simp only [Except.ok.injEq, Prod.mk.injEq] at h
          omega
  · intro data pos p1 e h
    unfold readInitExpr at h
    split at h
    · exact absurd h (by simp)
    · rename_i endPos heq
      have := (readInitExprLoop_le data _ pos 1 endPos heq).2 (by omega)
      simp only [Except.ok.injEq, Prod.mk.injEq] at h
      omega
  · intro data pos v p1 h
    exact readU32_lt h

/-- C9 (witness): the three strict-advance statements instantiated on
concrete inputs — an empty custom section, a one-byte `end` init
expression, and a one-byte LEB128 integer. -/
theorem C9_cursor_strictly_advances_witness :
    (sectionStep [1, 0] 0 = .ok (1, [], 2) ∧ 0 < 2) ∧
    (readInitExpr [0x0B] 0 = .ok ([0x0B], 1) ∧ 0 < 1) ∧
    (readU32 [5] 0 = .ok (5, 1) ∧ 0 < 1) :=
  ⟨⟨by decide, C9_cursor_strictly_advances.1 [1, 0] 0 1 2 [] (by decide)⟩,
   ⟨by decide,
    C9_cursor_strictly_advances.2.1 [0x0B] 0 1 [0x0B] (by decide)⟩,
   ⟨by decide, C9_cursor_strictly_advances.2.2 [5] 0 5 1 (by decide)⟩⟩

theorem parseElementEntry_tableIdx {data : List Nat} {pos p1 : Nat}
    {seg : ElementSegment}
    (h : parseElementEntry data pos = .ok (seg, p1)) : seg.tableIdx = 0 := by
  unfold parseElementEntry at h
  split at h
  · exact absurd h (by simp)
  · split at h
    · split at h
      · exact absurd h (by simp)
      · split at h
        · exact absurd h (by simp)
        · simp only [Except.ok.injEq, Prod.mk.injEq] at h
          rw [← h.1]
    · exact absurd h (by simp)

theorem parseElementLoop_tableIdx (data : List Nat) :
    ∀ count pos segs p1,
      parseElementLoop data count pos = .ok (segs, p1) →
      ∀ s ∈ segs, s.tableIdx = 0 := by
  intro count
  induction count with
  | zero =>
    intro pos segs p1 h s hs
    simp only [parseElementLoop, Except.ok.injEq, Prod.mk.injEq] at h
    rw [← h.1] at hs
    simp at hs
  | succ n ih =>
    intro pos segs p1 h s hs
    rw [parseElementLoop] at h
    split at h
    · exact absurd h (by simp)
    · rename_i seg pos' heq
      split at h
      · exact absurd h (by simp)
      · rename_i rest pos'' heq2
        simp only [Except.ok.injEq, Prod.mk.injEq] at h
        rw [← h.1] at hs
        cases hs with
        | head => exact parseElementEntry_tableIdx heq
        | tail _ hmem => exact ih pos' rest pos'' heq2 s hmem

/-- C10: every element-section entry whose flags value is not 0 makes
decoding fail with a `ParseError` (so the whole section and module
parse fail), and every accepted element segment is recorded with table
index 0. -/
theorem C10_element_flags :
    (∀ (data : List Nat) (pos flags p1 : Nat),
      readU32 data pos = .ok (flags, p1) → flags ≠ 0 →
      ∃ e, parseElementEntry data pos = .error e) ∧
    (∀ (data : List Nat) (pos p1 : Nat) (segs : List ElementSegment),
      parseElementSection data pos = .ok (segs, p1) →
      ∀ s ∈ segs, s.tableIdx = 0) := by
  constructor
  · intro data pos flags p1 hread hne
    unfold parseElementEntry
    rw [hread]
    simp [hne]
  · intro data pos p1 segs h s hs
    unfold parseElementSection at h
    split at h
    · exact absurd h (by simp)
    · rename_i count pos' heq
      exact parseElementLoop_tableIdx data count pos' segs p1 h s hs

/-- C10 (witness): a flags-1 entry is rejected, and a parsed flags-0
section records its segment with table index 0. -/
theorem C10_element_flags_witness :
    (∃ e, parseElementEntry [0x01] 0 = .error e) ∧
    (∀ s ∈ [(⟨0, [0x41, 0x00, 0x0B], [0]⟩ : ElementSegment)],
      s.tableIdx = 0) :=
  ⟨C10_element_flags.1 [0x01] 0 1 1 (by decide) (by decide),
   C10_element_flags.2 [0x01, 0x00, 0x41, 0x00, 0x0B, 0x01, 0x00] 0 7
     [⟨0, [0x41, 0x00, 0x0B], [0]⟩] (by decide)⟩

/-! ## The self-tail-call instruction (C7) -/

/-- C7: the claim asserts that for a function whose body ends in a self
`return_call`, "the emitted IL for that function" contains no
self-recursive call, only per-parameter stores and a jump to the entry
block.  On the code no IL is ever emitted for such a function:
`_compile_instruction` passes five positional arguments to the
six-parameter `compile_control_instruction` (`mod_ctx` is missing at
the call site), so `compile_module` raises `TypeError` at the first
instruction of every function body — here shown at the
`return_call` opcode 0x12 and at the final `end` 0x0B, both of which
every such body contains.  For contrast, the correctly-invoked
translator, which `compile_module` never reaches, does lower the self
`return_call` exactly as the claim describes: the argument is stored to
the parameter slot, the block is terminated by a jump to the entry
label, and no call instruction is emitted. -/
theorem C7_self_tail_call_type_error_no_il :
    dispatchControlCall 0x12 c7Ctx (mkBlock "b") =
      .error (.typeError
        "compile_control_instruction() missing 1 required positional argument: read_operand") ∧
    dispatchControlCall 0x0B c7Ctx (mkBlock "b") =
      .error (.typeError
        "compile_control_instruction() missing 1 required positional argument: read_operand") ∧
    compileControl [0x00] 0 0x12 c7Ctx ⟨selfCallModule⟩ (mkBlock "b") =
      .ok ⟨1, { c7Ctx with stack := { stack := [], tempCounter := 1 } },
        selfTailBlock, [], none⟩ ∧
    selfTailBlock.instructions =
      [.store "storew" (.temp "t0") (.temp "local_addr0")] ∧
    selfTailBlock.terminator = some (.jump ⟨"entry"⟩) ∧
    (∀ ins ∈ selfTailBlock.instructions, ins.isCall = false) := by
  decide

end Waq
